import Mathlib

/-!
# ImGuiFileDialog Vulkan demo (`main.cpp`): embedding and verified properties

The development embeds these parts of `main.cpp`:

* the labelled radio button helpers `RadioButtonLabeled` and `RadioButtonLabeled_BitWize`;
* the texture teardown `DestroyTexture` on `VulkanImageObject`;
* the texture upload helpers `CreateTextureFromBuffer` and `CreateTextureFromFile`, together
  with `check_vk_result`;
* the blocks of `main` that use them: the thumbnail creation callback and the reload of a
  user texture at the end of a frame;
* the custom pane `InfosPane`, the open mode radio buttons, the buttons that open a dialog
  and the blocks that read the result of a dialog.

Values of the template type `T` are represented by their bit pattern, a natural number below
`2 ^ w` for a width `w`.  Calls into Dear ImGui, Vulkan and stb_image are external: their
results are inputs of the embedding, and the calls that were issued are recorded in a trace.
-/

namespace ImGuiFileDialogDemo

/-! ## Radio buttons -/

/-- Results of the Dear ImGui calls made inside one call of `RadioButtonLabeled`:
`window->SkipItems`, the value of `ItemAdd(check_bb, id)` and the value of
`ButtonBehavior(check_bb, id, &hovered, &held)`. -/
structure ImGuiItem where
  SkipItems : Bool
  ItemAdd : Bool
  ButtonBehavior : Bool
deriving DecidableEq, Repr

/-- The function `RadioButtonLabeled` of `main.cpp` (lines 658-714), reduced to its return
value: `false` when the window skips items or the item is clipped, otherwise `pressed`, which
is the button behaviour unless the button is disabled.  The argument `active` only selects
how the frame is drawn. -/
def RadioButtonLabeled (g : ImGuiItem) (active disabled : Bool) : Bool :=
  if g.SkipItems then false
  else if !g.ItemAdd then false
  else
    let pressed := if !disabled then g.ButtonBehavior else false
    pressed

/-- The C operator `~x` on a value of a `w`-bit type, as a bit pattern. -/
def bitNot (w x : Nat) : Nat := (2 ^ w - 1) ^^^ (x % 2 ^ w)

/-- The conversion `(T)(x)` to a `w`-bit type, as a bit pattern. -/
def castT (w x : Nat) : Nat := x % 2 ^ w

/-- The function template `RadioButtonLabeled_BitWize` of `main.cpp` (lines 716-756) at a
`w`-bit type `T`.  The result pairs the returned `bool` with the value of `*vContainer` on
return.  `vLabelFont` is not used by the body. -/
def RadioButtonLabeled_BitWize (w : Nat) (g : ImGuiItem) (vContainer vFlag : Nat)
    (vOneOrZeroAtTime vAlwaysOne : Bool) (vFlagsToTakeIntoAccount : Nat)
    (vDisableSelection : Bool) : Bool × Nat :=
  let selected : Bool := (vContainer &&& vFlag) != 0
  let res := RadioButtonLabeled g selected vDisableSelection
  let container :=
    if res then
      if !selected then
        if vOneOrZeroAtTime then
          if vFlagsToTakeIntoAccount != 0 then
            if (vFlag &&& vFlagsToTakeIntoAccount) != 0 then
              let c1 := castT w (vContainer &&& bitNot w vFlagsToTakeIntoAccount)
              castT w (c1 ||| vFlag)
            else vContainer
          else vFlag
        else
          if vFlagsToTakeIntoAccount != 0 then
            if (vFlag &&& vFlagsToTakeIntoAccount) != 0 then
              let c1 := castT w (vContainer &&& bitNot w vFlagsToTakeIntoAccount)
              castT w (c1 ||| vFlag)
            else vContainer
          else castT w (vContainer ||| vFlag)
      else
        if vOneOrZeroAtTime then
          if !vAlwaysOne then castT w 0
          else vContainer
        else castT w (vContainer &&& bitNot w vFlag)
    else vContainer
  (res, container)

/-! ## Vulkan textures -/

/-- A Vulkan handle (`VkBuffer`, `VkImage`, `VkDeviceMemory`, ...), by its numeric value. -/
abbrev Handle := Nat

/-- The null handle. -/
def VK_NULL_HANDLE : Handle := 0

/-- The struct `VulkanImageObject` of `main.cpp` (lines 373-382); every member is
initialised to `VK_NULL_HANDLE`. -/
structure VulkanImageObject where
  imgMem : Handle := VK_NULL_HANDLE
  img : Handle := VK_NULL_HANDLE
  bufMem : Handle := VK_NULL_HANDLE
  buf : Handle := VK_NULL_HANDLE
  sam : Handle := VK_NULL_HANDLE
  view : Handle := VK_NULL_HANDLE
  descriptor : Handle := VK_NULL_HANDLE
deriving DecidableEq, Repr

/-- An observable step of the texture helpers: a call into Vulkan, the ImGui Vulkan backend or
stb_image with its main arguments, an allocation, or a line of output.
`fprintf_stderr_VkResult err` is the line `[vulkan] Error: VkResult = err` on `stderr`,
`printf_file_to_load f` the line `file to load : f` and `printf_flush_issue` the text
`vkFlushMappedMemoryRanges issue` on `stdout`. -/
inductive Event where
  | fprintf_stderr_VkResult (err : Int)
  | printf_file_to_load (inFile : String)
  | printf_flush_issue
  | stbi_load (inFile : String)
  | stbi_image_free
  | new_VulkanImageObject
  | delete_VulkanImageObject
  | vkDestroyBuffer (buf : Handle)
  | vkFreeMemory (mem : Handle)
  | vkDestroyImageView (view : Handle)
  | vkDestroyImage (img : Handle)
  | vkDestroySampler (sam : Handle)
  | ImGui_ImplVulkanH_Destroy_UserTexture_Descriptor (descriptor : Handle)
  | vkCreateImage (width height : Nat)
  | vkGetImageMemoryRequirements (img : Handle)
  | ImGui_ImplVulkan_MemoryType (type_bits : Nat)
  | vkAllocateMemory (allocationSize memoryTypeIndex : Nat)
  | vkBindImageMemory (img mem : Handle)
  | vkCreateSampler
  | vkCreateImageView (img : Handle)
  | ImGui_ImplVulkanH_Create_UserTexture_Descriptor (sam view : Handle)
  | vkCreateBuffer (size : Nat)
  | vkGetBufferMemoryRequirements (buf : Handle)
  | vkBindBufferMemory (buf mem : Handle)
  | vkMapMemory (mem : Handle) (size : Nat)
  | memcpy (buffer : List Nat) (size : Nat)
  | vkFlushMappedMemoryRanges (mem : Handle) (size : Nat)
  | vkUnmapMemory (mem : Handle)
  | vkCmdPipelineBarrier (command_buffer img : Handle)
  | vkCmdCopyBufferToImage (command_buffer buf img : Handle) (width height : Nat)
  | vkDeviceWaitIdle
  | vkWaitForFences
  | vkAllocateCommandBuffers
  | vkBeginCommandBuffer (commandBuffer : Handle)
  | vkEndCommandBuffer (commandBuffer : Handle)
  | vkQueueSubmit (commandBuffer : Handle)
  | vkQueueWaitIdle
  | vkFreeCommandBuffers (commandBuffer : Handle)
  | delete_textureFileDatas
deriving DecidableEq, Repr

/-- How a run of a helper ends: it returns a value, or the process is stopped by `abort()`.
Both carry the events issued up to that point, in order. -/
inductive Outcome (α : Type) where
  | returned (val : α) (trace : List Event)
  | aborted (trace : List Event)
deriving DecidableEq, Repr

/-- The outcome `x` preceded by the events `t`. -/
def Outcome.prepend {α : Type} (t : List Event) (x : Outcome α) : Outcome α :=
  match x with
  | .returned a t2 => .returned a (t ++ t2)
  | .aborted t2 => .aborted (t ++ t2)

/-- Sequencing: the second part runs only if the first returned. -/
def Outcome.bind {α β : Type} (x : Outcome α) (f : α → Outcome β) : Outcome β :=
  match x with
  | .returned a t => (f a).prepend t
  | .aborted t => .aborted t

instance : Monad Outcome where
  pure a := .returned a []
  bind := Outcome.bind

/-- Issue one event. -/
def emit (e : Event) : Outcome Unit := .returned () [e]

/-- The C library function `abort()`. -/
def abort {α : Type} : Outcome α := .aborted []

/-- The function `check_vk_result` of `main.cpp` (lines 64-71). -/
def check_vk_result (err : Int) : Outcome Unit :=
  if err == 0 then
    pure ()
  else do
    emit (.fprintf_stderr_VkResult err)
    if err < 0 then
      abort

/-- The function `DestroyTexture` of `main.cpp` (lines 419-461).  The pointer `image_object`
is `none` when null; the returned value is the object it points to after the call. -/
def DestroyTexture (image_object : Option VulkanImageObject) :
    Outcome (Option VulkanImageObject) := do
  match image_object with
  | none => return none
  | some o =>
    let mut obj := o
    if obj.buf ≠ VK_NULL_HANDLE then
      emit (.vkDestroyBuffer obj.buf)
      obj := { obj with buf := VK_NULL_HANDLE }
    if obj.bufMem ≠ VK_NULL_HANDLE then
      emit (.vkFreeMemory obj.bufMem)
      obj := { obj with bufMem := VK_NULL_HANDLE }
    if obj.view ≠ VK_NULL_HANDLE then
      emit (.vkDestroyImageView obj.view)
      obj := { obj with view := VK_NULL_HANDLE }
    if obj.img ≠ VK_NULL_HANDLE then
      emit (.vkDestroyImage obj.img)
      obj := { obj with img := VK_NULL_HANDLE }
    if obj.imgMem ≠ VK_NULL_HANDLE then
      emit (.vkFreeMemory obj.imgMem)
      obj := { obj with imgMem := VK_NULL_HANDLE }
    if obj.sam ≠ VK_NULL_HANDLE then
      emit (.vkDestroySampler obj.sam)
      obj := { obj with sam := VK_NULL_HANDLE }
    if obj.descriptor ≠ VK_NULL_HANDLE then
      emit (.ImGui_ImplVulkanH_Destroy_UserTexture_Descriptor obj.descriptor)
      obj := { obj with descriptor := VK_NULL_HANDLE }
    return some obj

/-- Conversion of an `int` to `size_t` (64 bits). -/
def size_t_of (x : Int) : Nat := (x % 2 ^ 64).toNat

/-- Conversion of an `int` to `uint32_t`. -/
def uint32_of (x : Int) : Nat := (x % 2 ^ 32).toNat

/-- What the driver answers to the calls of one run of `CreateTextureFromBuffer`: for each
call that yields a `VkResult`, that result, paired with the handle written through the output
pointer where there is one; the memory requirements (`size`, `memoryTypeBits`) and the memory
type index chosen by `ImGui_ImplVulkan_MemoryType` for the image and for the buffer; and the
descriptor set made by `ImGui_ImplVulkanH_Create_UserTexture_Descriptor`. -/
structure VkDriver where
  vkCreateImage : Int × Handle
  imageReq : Nat × Nat
  imageMemoryType : Nat
  vkAllocateMemory_img : Int × Handle
  vkBindImageMemory : Int
  vkCreateSampler : Int × Handle
  vkCreateImageView : Int × Handle
  Create_UserTexture_Descriptor : Handle
  vkCreateBuffer : Int × Handle
  bufferReq : Nat × Nat
  bufferMemoryType : Nat
  vkAllocateMemory_buf : Int × Handle
  vkBindBufferMemory : Int
  vkMapMemory : Int
  vkFlushMappedMemoryRanges : Int
  vkDeviceWaitIdle : Int
deriving DecidableEq, Repr

/-- The deleter given to the `shared_ptr` in `CreateTextureFromBuffer` (`main.cpp`, lines
465-469): `DestroyTexture(v, obj); delete obj;`. -/
def sharedPtrDeleter (obj : VulkanImageObject) : Outcome Unit := do
  let _ ← DestroyTexture (some obj)
  emit .delete_VulkanImageObject

/-- The function `CreateTextureFromBuffer` of `main.cpp` (lines 462-620).  `buffer` is the
pixel data; the returned `shared_ptr` is never null, so the value is the object itself. -/
def CreateTextureFromBuffer (vk : VkDriver) (command_buffer : Handle) (buffer : List Nat)
    (w h n : Int) : Outcome VulkanImageObject := do
  emit .new_VulkanImageObject
  let mut res : VulkanImageObject := {}
  let buffer_size : Nat :=
    (((1 * size_t_of n) % 2 ^ 64 * size_t_of w) % 2 ^ 64 * size_t_of h) % 2 ^ 64
  -- Create the Image:
  emit (.vkCreateImage (uint32_of w) (uint32_of h))
  res := { res with img := vk.vkCreateImage.2 }
  check_vk_result vk.vkCreateImage.1
  emit (.vkGetImageMemoryRequirements res.img)
  emit (.ImGui_ImplVulkan_MemoryType vk.imageReq.2)
  emit (.vkAllocateMemory vk.imageReq.1 vk.imageMemoryType)
  res := { res with imgMem := vk.vkAllocateMemory_img.2 }
  check_vk_result vk.vkAllocateMemory_img.1
  emit (.vkBindImageMemory res.img res.imgMem)
  check_vk_result vk.vkBindImageMemory
  -- Create the Image Sampler :
  emit .vkCreateSampler
  res := { res with sam := vk.vkCreateSampler.2 }
  check_vk_result vk.vkCreateSampler.1
  -- Create the Image View:
  emit (.vkCreateImageView res.img)
  res := { res with view := vk.vkCreateImageView.2 }
  check_vk_result vk.vkCreateImageView.1
  -- create the descriptor. will be put in ImTextureID
  emit (.ImGui_ImplVulkanH_Create_UserTexture_Descriptor res.sam res.view)
  res := { res with descriptor := vk.Create_UserTexture_Descriptor }
  -- Create the Upload Buffer:
  emit (.vkCreateBuffer buffer_size)
  res := { res with buf := vk.vkCreateBuffer.2 }
  check_vk_result vk.vkCreateBuffer.1
  emit (.vkGetBufferMemoryRequirements res.buf)
  emit (.ImGui_ImplVulkan_MemoryType vk.bufferReq.2)
  emit (.vkAllocateMemory vk.bufferReq.1 vk.bufferMemoryType)
  res := { res with bufMem := vk.vkAllocateMemory_buf.2 }
  check_vk_result vk.vkAllocateMemory_buf.1
  emit (.vkBindBufferMemory res.buf res.bufMem)
  check_vk_result vk.vkBindBufferMemory
  -- Upload to Buffer:
  emit (.vkMapMemory res.bufMem buffer_size)
  check_vk_result vk.vkMapMemory
  emit (.memcpy buffer buffer_size)
  emit (.vkFlushMappedMemoryRanges res.bufMem buffer_size)
  if vk.vkFlushMappedMemoryRanges ≠ 0 then
    emit .printf_flush_issue
  check_vk_result vk.vkFlushMappedMemoryRanges
  emit (.vkUnmapMemory res.bufMem)
  -- Copy to Image:
  emit (.vkCmdPipelineBarrier command_buffer res.img)
  emit (.vkCmdCopyBufferToImage command_buffer res.buf res.img (uint32_of w) (uint32_of h))
  emit (.vkCmdPipelineBarrier command_buffer res.img)
  emit .vkDeviceWaitIdle
  check_vk_result vk.vkDeviceWaitIdle
  return res

/-- What `stbi_load` hands back: the pixel data (`none` for a null pointer) and the values it
stored in `w`, `h` and `chans`. -/
structure StbiImage where
  imgDatas : Option (List Nat)
  w : Int
  h : Int
  chans : Int
deriving DecidableEq, Repr

/-- The function `CreateTextureFromFile` of `main.cpp` (lines 622-638); `none` is the null
`shared_ptr`.  `vOriginal` is not used by the body. -/
def CreateTextureFromFile (vk : VkDriver) (stbi : StbiImage) (command_buffer : Handle)
    (inFile : String) : Outcome (Option VulkanImageObject) := do
  let mut res : Option VulkanImageObject := none
  emit (.printf_file_to_load inFile)
  emit (.stbi_load inFile)
  match stbi.imgDatas with
  | some imgDatas =>
    if stbi.w ≠ 0 ∧ stbi.h ≠ 0 then
      let obj ← CreateTextureFromBuffer vk command_buffer imgDatas stbi.w stbi.h 4
      res := some obj
      emit .stbi_image_free
  | none => pure ()
  return res

/-- No call checked by `check_vk_result` in `CreateTextureFromBuffer` yields a negative
`VkResult`. -/
def VkDriver.noNegativeResult (vk : VkDriver) : Prop :=
  0 ≤ vk.vkCreateImage.1 ∧ 0 ≤ vk.vkAllocateMemory_img.1 ∧ 0 ≤ vk.vkBindImageMemory ∧
  0 ≤ vk.vkCreateSampler.1 ∧ 0 ≤ vk.vkCreateImageView.1 ∧ 0 ≤ vk.vkCreateBuffer.1 ∧
  0 ≤ vk.vkAllocateMemory_buf.1 ∧ 0 ≤ vk.vkBindBufferMemory ∧ 0 ≤ vk.vkMapMemory ∧
  0 ≤ vk.vkFlushMappedMemoryRanges ∧ 0 ≤ vk.vkDeviceWaitIdle

instance (vk : VkDriver) : Decidable vk.noNegativeResult := by
  unfold VkDriver.noNegativeResult; infer_instance

/-- A driver that answers `VK_SUCCESS` to every call. -/
def acceptingDriver : VkDriver :=
  ⟨(0, 11), (64, 1), 0, (0, 12), 0, (0, 13), (0, 14), 15, (0, 16), (64, 1), 1, (0, 17), 0, 0,
    0, 0⟩

/-- A driver whose `vkCreateImage` answers `VK_ERROR_OUT_OF_HOST_MEMORY` (`-1`). -/
def failingDriver : VkDriver :=
  { acceptingDriver with vkCreateImage := (-1, 0) }

/-- A decoded image of one pixel. -/
def onePixel : StbiImage := ⟨some [255, 0, 0, 255], 1, 1, 4⟩

/-! ## Textures in the main loop -/

/-- The function `beginSingleTimeCommands` of `main.cpp` (lines 384-402).  `commandBuffer` is
the handle that `vkAllocateCommandBuffers` stores; the results of the two Vulkan calls are
not looked at. -/
def beginSingleTimeCommands (commandBuffer : Handle) : Outcome Handle := do
  emit .vkAllocateCommandBuffers
  emit (.vkBeginCommandBuffer commandBuffer)
  return commandBuffer

/-- The function `endSingleTimeCommands` of `main.cpp` (lines 404-417). -/
def endSingleTimeCommands (commandBuffer : Handle) : Outcome Unit := do
  emit (.vkEndCommandBuffer commandBuffer)
  emit (.vkQueueSubmit commandBuffer)
  emit .vkQueueWaitIdle
  emit (.vkFreeCommandBuffers commandBuffer)

/-- Assignment of `new` to a `shared_ptr` that is the only owner of its object: the object
held before, if any, is handed to the deleter. -/
def sharedPtrAssign (old new : Option VulkanImageObject) :
    Outcome (Option VulkanImageObject) := do
  match old with
  | some obj => sharedPtrDeleter obj
  | none => pure ()
  return new

/-- What the driver answers to the calls that the reload block of `main` makes itself: the
results of `vkWaitForFences` and of the two `vkDeviceWaitIdle`, and the command buffer stored
by `vkAllocateCommandBuffers`. -/
structure FrameDriver where
  vkWaitForFences : Int
  vkDeviceWaitIdle_first : Int
  commandBuffer : Handle
  vkDeviceWaitIdle_last : Int
deriving DecidableEq, Repr

/-- The explicit teardown of the reload block of `main` (`main.cpp`, lines 1501-1515): the
pair of `userImage1` and `userImage2` after it. -/
def reloadDestroy (textureInput : String) (userImage1 userImage2 : Option VulkanImageObject) :
    Outcome (Option VulkanImageObject × Option VulkanImageObject) :=
  if textureInput = "UserTexture1" then
    if userImage1.isSome then do
      let userImage1 ← DestroyTexture userImage1
      return (userImage1, userImage2)
    else
      return (userImage1, userImage2)
  else if textureInput = "UserTexture2" then
    match userImage2 with
    | some obj =>
      if obj.buf ≠ VK_NULL_HANDLE then do
        let userImage2 ← DestroyTexture userImage2
        return (userImage1, userImage2)
      else
        return (userImage1, userImage2)
    | none => return (userImage1, userImage2)
  else
    return (userImage1, userImage2)

/-- The two assignments of the reload block of `main` (`main.cpp`, lines 1524-1531), run when
the command buffer `cmd` is not null. -/
def reloadCreate (vk : VkDriver) (stbi : StbiImage) (cmd : Handle)
    (fileToLoad textureInput : String) (userImage1 userImage2 : Option VulkanImageObject) :
    Outcome (Option VulkanImageObject × Option VulkanImageObject) :=
  if textureInput = "UserTexture1" then do
    let loaded ← CreateTextureFromFile vk stbi cmd fileToLoad
    let userImage1 ← sharedPtrAssign userImage1 loaded
    return (userImage1, userImage2)
  else if textureInput = "UserTexture2" then do
    let loaded ← CreateTextureFromFile vk stbi cmd fileToLoad
    let userImage2 ← sharedPtrAssign userImage2 loaded
    return (userImage1, userImage2)
  else
    return (userImage1, userImage2)

/-- The reload block at the end of a frame of `main` (`main.cpp`, lines 1495-1537).  The
result is the pair of `userImage1` and `userImage2` after the block. -/
def reloadUserTexture (fd : FrameDriver) (vk : VkDriver) (stbi : StbiImage)
    (fileToLoad textureInput : String) (userImage1 userImage2 : Option VulkanImageObject) :
    Outcome (Option VulkanImageObject × Option VulkanImageObject) :=
  if fileToLoad ≠ "" ∧ textureInput ≠ "" then do
    emit .vkWaitForFences
    check_vk_result fd.vkWaitForFences
    let destroyed ← reloadDestroy textureInput userImage1 userImage2
    emit .vkDeviceWaitIdle
    check_vk_result fd.vkDeviceWaitIdle_first
    let cmd ← beginSingleTimeCommands fd.commandBuffer
    let loaded ←
      if cmd ≠ VK_NULL_HANDLE then do
        let created ← reloadCreate vk stbi cmd fileToLoad textureInput destroyed.1 destroyed.2
        endSingleTimeCommands cmd
        pure created
      else
        pure destroyed
    emit .vkDeviceWaitIdle
    check_vk_result fd.vkDeviceWaitIdle_last
    return loaded
  else
    return (userImage1, userImage2)

/-- Modelled from the spec: the struct `IGFD_Thumbnail_Info` is declared in the library
header, which is not among the sources; these are the members `main.cpp` reads and writes.
`userDatas` and `textureID` point to, or into, a texture object held by `fileDialogAssets`
and are given by the index of that entry; `none` is the null pointer. -/
structure IGFD_Thumbnail_Info where
  isReadyToDisplay : Bool
  isReadyToUpload : Bool
  textureFileDatas : Option (List Nat)
  textureWidth : Int
  textureHeight : Int
  textureChannels : Int
  userDatas : Option Nat
  textureID : Option Nat
deriving DecidableEq, Repr

/-- The callback given to `SetCreateThumbnailCallback` in `main` (`main.cpp`, lines 841-873).
`commandBuffer` is the handle stored by `vkAllocateCommandBuffers`; the result is
`fileDialogAssets` and the thumbnail info after the call. -/
def createThumbnailCallback (vk : VkDriver) (commandBuffer : Handle)
    (fileDialogAssets : List (Option VulkanImageObject))
    (vThumbnail_Info : Option IGFD_Thumbnail_Info) :
    Outcome (List (Option VulkanImageObject) × Option IGFD_Thumbnail_Info) := do
  match vThumbnail_Info with
  | none => return (fileDialogAssets, vThumbnail_Info)
  | some info =>
    if info.isReadyToUpload then
      match info.textureFileDatas with
      | none => return (fileDialogAssets, vThumbnail_Info)
      | some textureFileDatas =>
        let mut info := info
        let mut obj : Option VulkanImageObject := none
        let cmd ← beginSingleTimeCommands commandBuffer
        if cmd ≠ VK_NULL_HANDLE then
          let created ← CreateTextureFromBuffer vk cmd textureFileDatas info.textureWidth
            info.textureHeight info.textureChannels
          obj := some created
          info := { info with userDatas := some fileDialogAssets.length }
          endSingleTimeCommands cmd
        let fileDialogAssets := fileDialogAssets ++ [obj]
        info := { info with textureID := some (fileDialogAssets.length - 1) }
        emit .delete_textureFileDatas
        info := { info with textureFileDatas := none }
        info := { info with isReadyToUpload := false }
        info := { info with isReadyToDisplay := true }
        return (fileDialogAssets, some info)
    else
      return (fileDialogAssets, vThumbnail_Info)

/-! ## Calls in a trace -/

/-- Whether an event is a call or an allocation; the three kinds of output line are not. -/
def Event.isCall : Event → Bool
  | .fprintf_stderr_VkResult _ => false
  | .printf_file_to_load _ => false
  | .printf_flush_issue => false
  | _ => true

/-- The name of the function or operator behind an event. -/
def Event.callee : Event → String
  | .fprintf_stderr_VkResult _ => "fprintf"
  | .printf_file_to_load _ => "printf"
  | .printf_flush_issue => "printf"
  | .stbi_load _ => "stbi_load"
  | .stbi_image_free => "stbi_image_free"
  | .new_VulkanImageObject => "new"
  | .delete_VulkanImageObject => "delete"
  | .vkDestroyBuffer _ => "vkDestroyBuffer"
  | .vkFreeMemory _ => "vkFreeMemory"
  | .vkDestroyImageView _ => "vkDestroyImageView"
  | .vkDestroyImage _ => "vkDestroyImage"
  | .vkDestroySampler _ => "vkDestroySampler"
  | .ImGui_ImplVulkanH_Destroy_UserTexture_Descriptor _ =>
    "ImGui_ImplVulkanH_Destroy_UserTexture_Descriptor"
  | .vkCreateImage _ _ => "vkCreateImage"
  | .vkGetImageMemoryRequirements _ => "vkGetImageMemoryRequirements"
  | .ImGui_ImplVulkan_MemoryType _ => "ImGui_ImplVulkan_MemoryType"
  | .vkAllocateMemory _ _ => "vkAllocateMemory"
  | .vkBindImageMemory _ _ => "vkBindImageMemory"
  | .vkCreateSampler => "vkCreateSampler"
  | .vkCreateImageView _ => "vkCreateImageView"
  | .ImGui_ImplVulkanH_Create_UserTexture_Descriptor _ _ =>
    "ImGui_ImplVulkanH_Create_UserTexture_Descriptor"
  | .vkCreateBuffer _ => "vkCreateBuffer"
  | .vkGetBufferMemoryRequirements _ => "vkGetBufferMemoryRequirements"
  | .vkBindBufferMemory _ _ => "vkBindBufferMemory"
  | .vkMapMemory _ _ => "vkMapMemory"
  | .memcpy _ _ => "memcpy"
  | .vkFlushMappedMemoryRanges _ _ => "vkFlushMappedMemoryRanges"
  | .vkUnmapMemory _ => "vkUnmapMemory"
  | .vkCmdPipelineBarrier _ _ => "vkCmdPipelineBarrier"
  | .vkCmdCopyBufferToImage _ _ _ _ _ => "vkCmdCopyBufferToImage"
  | .vkDeviceWaitIdle => "vkDeviceWaitIdle"
  | .vkWaitForFences => "vkWaitForFences"
  | .vkAllocateCommandBuffers => "vkAllocateCommandBuffers"
  | .vkBeginCommandBuffer _ => "vkBeginCommandBuffer"
  | .vkEndCommandBuffer _ => "vkEndCommandBuffer"
  | .vkQueueSubmit _ => "vkQueueSubmit"
  | .vkQueueWaitIdle => "vkQueueWaitIdle"
  | .vkFreeCommandBuffers _ => "vkFreeCommandBuffers"
  | .delete_textureFileDatas => "delete[]"

/-- The calls of a trace, in order, without the output lines. -/
def calls (t : List Event) : List Event := t.filter Event.isCall

/-- The events of a run, whether it returned or was aborted. -/
def Outcome.trace {α : Type} : Outcome α → List Event
  | .returned _ t => t
  | .aborted t => t

/-- The run `x` follows the call list `L` with the checked results `errs`: if it returned, it
made exactly the calls of `L` and no result of `errs` is negative; if it was aborted, it made
a prefix of the calls of `L` and its last event is the error line of a negative result of
`errs`. -/
def Follows {α : Type} (x : Outcome α) (L : List Event) (errs : List Int) : Prop :=
  match x with
  | .returned _ t => calls t = L ∧ ∀ e ∈ errs, 0 ≤ e
  | .aborted t =>
    calls t <+: L ∧ ∃ t0 err, err < 0 ∧ err ∈ errs ∧ t = t0 ++ [Event.fprintf_stderr_VkResult err]

/-- The call statements of `CreateTextureFromBuffer` in the order of the source, with their
arguments. -/
def CreateTextureFromBuffer_calls (vk : VkDriver) (command_buffer : Handle)
    (buffer : List Nat) (w h n : Int) : List Event :=
  let buffer_size : Nat :=
    (((1 * size_t_of n) % 2 ^ 64 * size_t_of w) % 2 ^ 64 * size_t_of h) % 2 ^ 64
  [.new_VulkanImageObject,
    .vkCreateImage (uint32_of w) (uint32_of h),
    .vkGetImageMemoryRequirements vk.vkCreateImage.2,
    .ImGui_ImplVulkan_MemoryType vk.imageReq.2,
    .vkAllocateMemory vk.imageReq.1 vk.imageMemoryType,
    .vkBindImageMemory vk.vkCreateImage.2 vk.vkAllocateMemory_img.2,
    .vkCreateSampler,
    .vkCreateImageView vk.vkCreateImage.2,
    .ImGui_ImplVulkanH_Create_UserTexture_Descriptor vk.vkCreateSampler.2 vk.vkCreateImageView.2,
    .vkCreateBuffer buffer_size,
    .vkGetBufferMemoryRequirements vk.vkCreateBuffer.2,
    .ImGui_ImplVulkan_MemoryType vk.bufferReq.2,
    .vkAllocateMemory vk.bufferReq.1 vk.bufferMemoryType,
    .vkBindBufferMemory vk.vkCreateBuffer.2 vk.vkAllocateMemory_buf.2,
    .vkMapMemory vk.vkAllocateMemory_buf.2 buffer_size,
    .memcpy buffer buffer_size,
    .vkFlushMappedMemoryRanges vk.vkAllocateMemory_buf.2 buffer_size,
    .vkUnmapMemory vk.vkAllocateMemory_buf.2,
    .vkCmdPipelineBarrier command_buffer vk.vkCreateImage.2,
    .vkCmdCopyBufferToImage command_buffer vk.vkCreateBuffer.2 vk.vkCreateImage.2 (uint32_of w)
      (uint32_of h),
    .vkCmdPipelineBarrier command_buffer vk.vkCreateImage.2,
    .vkDeviceWaitIdle]

/-- The results that `CreateTextureFromBuffer` hands to `check_vk_result`, in order. -/
def VkDriver.checkedResults (vk : VkDriver) : List Int :=
  [vk.vkCreateImage.1, vk.vkAllocateMemory_img.1, vk.vkBindImageMemory, vk.vkCreateSampler.1,
    vk.vkCreateImageView.1, vk.vkCreateBuffer.1, vk.vkAllocateMemory_buf.1,
    vk.vkBindBufferMemory, vk.vkMapMemory, vk.vkFlushMappedMemoryRanges, vk.vkDeviceWaitIdle]

/-! ## The custom pane -/

/-- A Dear ImGui call made by `InfosPane`. -/
inductive PaneCall where
  | TextColored_InfosPane
  | Text_SelectedFilter (vFilter : String)
  | Text_UserDatas (userDatas : String)
  | Checkbox
deriving DecidableEq, Repr

/-- The initial value of the static `canValidateDialog` (`main.cpp`, line 640). -/
def canValidateDialog_initial : Bool := false

/-- What one call of `InfosPane` leaves behind: the static `canValidateDialog`, the `bool`
behind `vCantContinue` (`none` for a null pointer) and the Dear ImGui calls made. -/
structure InfosPaneResult where
  canValidateDialog : Bool
  vCantContinue : Option Bool
  calls : List PaneCall
deriving DecidableEq, Repr

/-- The function `InfosPane` of `main.cpp` (lines 642-656).  `checkbox` is what
`ImGui::Checkbox` does to the `bool` it is given: it maps the value found to the value left.
`vUserDatas` and `vCantContinue` are `none` when null; for `vCantContinue` the value is the
`bool` it points to. -/
def InfosPane (checkbox : Bool → Bool) (canValidateDialog : Bool) (vFilter : String)
    (vUserDatas : Option String) (vCantContinue : Option Bool) : InfosPaneResult :=
  let calls := [PaneCall.TextColored_InfosPane, PaneCall.Text_SelectedFilter vFilter]
  let calls := match vUserDatas with
    | some userDatas => calls ++ [PaneCall.Text_UserDatas userDatas]
    | none => calls
  let canValidateDialog := checkbox canValidateDialog
  let calls := calls ++ [PaneCall.Checkbox]
  let vCantContinue := match vCantContinue with
    | some _ => some canValidateDialog
    | none => none
  ⟨canValidateDialog, vCantContinue, calls⟩

/-! ## The open mode and the open buttons -/

/-- The statics of `main` that hold what a dialog returned (`main.cpp`, lines 1020-1024). -/
structure DialogReturns where
  filePathName : String
  filePath : String
  filter : String
  userDatas : String
  selection : List (String × String)
deriving DecidableEq, Repr

/-- What a C++ dialog object answers in one frame: the values of `Display`, `IsOk`,
`GetFilePathName`, `GetCurrentPath`, `GetCurrentFilter`, `GetUserDatas` (`none` for null)
and `GetSelection`, the map from file name to file path name listed in its iteration
order. -/
structure DialogAnswers where
  Display : Bool
  IsOk : Bool
  GetFilePathName : String
  GetCurrentPath : String
  GetCurrentFilter : String
  GetUserDatas : Option String
  GetSelection : List (String × String)
deriving DecidableEq, Repr

/-- The block of `main` that displays a C++ dialog and reads its result (`main.cpp`, lines
1248-1268 for the singleton, 1270-1290 for `fileDialog2`).  The second component says whether
`Close` was called. -/
def displayDialog (d : DialogAnswers) (r : DialogReturns) : DialogReturns × Bool :=
  if d.Display then
    if d.IsOk then
      let filePathName := d.GetFilePathName
      let filePath := d.GetCurrentPath
      let filter := d.GetCurrentFilter
      let userDatas := match d.GetUserDatas with
        | some u => u
        | none => r.userDatas
      let sel := d.GetSelection
      let selection : List (String × String) := []
      let selection := sel.foldl (fun selection s => selection ++ [(s.1, s.2)]) selection
      (⟨filePathName, filePath, filter, userDatas, selection⟩, true)
    else (r, true)
  else (r, false)

/-- Modelled from the spec: the struct `IGFD_Selection_Pair` is declared in the library
header, which is not among the sources; these are the members `main.cpp` reads. -/
structure IGFD_Selection_Pair where
  fileName : String
  filePathName : String
deriving DecidableEq, Repr

/-- Modelled from the spec: the struct `IGFD_Selection` is declared in the library header,
which is not among the sources; these are the members `main.cpp` reads. -/
structure IGFD_Selection where
  table : List IGFD_Selection_Pair
  count : Nat
deriving DecidableEq, Repr

/-- What the C dialog answers in one frame; the strings are `none` for a null pointer. -/
structure CDialogAnswers where
  IGFD_DisplayDialog : Bool
  IGFD_IsOk : Bool
  IGFD_GetFilePathName : Option String
  IGFD_GetCurrentPath : Option String
  IGFD_GetCurrentFilter : Option String
  IGFD_GetUserDatas : Option String
  IGFD_GetSelection : IGFD_Selection
deriving DecidableEq, Repr

/-- The block of `main` that displays the C dialog and reads its result (`main.cpp`, lines
1295-1327).  The loop reads `csel.table[i]` for `i < csel.count`; an index outside the table
adds nothing.  The second component says whether `IGFD_CloseDialog` was called. -/
def displayDialogC (d : CDialogAnswers) (r : DialogReturns) : DialogReturns × Bool :=
  if d.IGFD_DisplayDialog then
    if d.IGFD_IsOk then
      let filePathName := match d.IGFD_GetFilePathName with
        | some cfilePathName => cfilePathName
        | none => r.filePathName
      let filePath := match d.IGFD_GetCurrentPath with
        | some cfilePath => cfilePath
        | none => r.filePath
      let filter := match d.IGFD_GetCurrentFilter with
        | some cfilter => cfilter
        | none => r.filter
      let userDatas := match d.IGFD_GetUserDatas with
        | some cdatas => cdatas
        | none => r.userDatas
      let csel := d.IGFD_GetSelection
      let selection : List (String × String) := []
      let selection := (List.range csel.count).foldl
        (fun selection i =>
          match csel.table[i]? with
          | some pair => selection ++ [(pair.fileName, pair.filePathName)]
          | none => selection)
        selection
      (⟨filePathName, filePath, filter, userDatas, selection⟩, true)
    else (r, true)
  else (r, false)

/-! ## Lemmas on the radio buttons -/

theorem castT_of_lt {w x : Nat} (h : x < 2 ^ w) : castT w x = x := Nat.mod_eq_of_lt h

theorem and_bitNot_lt (w x : Nat) {c : Nat} (hc : c < 2 ^ w) : c &&& bitNot w x < 2 ^ w :=
  Nat.lt_of_le_of_lt Nat.and_le_left hc

theorem testBit_bitNot (w x i : Nat) :
    (bitNot w x).testBit i = (decide (i < w) && !x.testBit i) := by
  simp only [bitNot, Nat.testBit_xor, Nat.testBit_two_pow_sub_one, Nat.testBit_mod_two_pow]
  by_cases h : i < w <;> simp [h]

theorem testBit_and_bitNot {w c : Nat} (hc : c < 2 ^ w) (x i : Nat) :
    (c &&& bitNot w x).testBit i = (c.testBit i && !x.testBit i) := by
  rw [Nat.testBit_and, testBit_bitNot]
  by_cases h : i < w
  · simp [h]
  · have : c.testBit i = false :=
      Nat.testBit_lt_two_pow (Nat.lt_of_lt_of_le hc (Nat.pow_le_pow_right (by decide) (Nat.le_of_not_lt h)))
    simp [this]

theorem fst_eq (w : Nat) (g : ImGuiItem) (c f : Nat) (o a : Bool) (m : Nat) (d : Bool) :
    (RadioButtonLabeled_BitWize w g c f o a m d).1 = RadioButtonLabeled g ((c &&& f) != 0) d := rfl

/-- Pressed on an unselected flag with mask `0` and `vOneOrZeroAtTime = false`. -/
theorem snd_add {w : Nat} (g : ImGuiItem) {c f : Nat} (a d : Bool)
    (hc : c < 2 ^ w) (hf : f < 2 ^ w) (hsel : c &&& f = 0)
    (hp : (RadioButtonLabeled_BitWize w g c f false a 0 d).1 = true) :
    (RadioButtonLabeled_BitWize w g c f false a 0 d).2 = c ||| f := by
  simp only [fst_eq, hsel, bne_self_eq_false] at hp
  simp [RadioButtonLabeled_BitWize, hp, hsel, castT_of_lt (Nat.or_lt_two_pow hc hf)]

theorem snd_remove {w : Nat} (g : ImGuiItem) {c f : Nat} (a : Bool) (m : Nat) (d : Bool)
    (hc : c < 2 ^ w) (hsel : c &&& f ≠ 0)
    (hp : (RadioButtonLabeled_BitWize w g c f false a m d).1 = true) :
    (RadioButtonLabeled_BitWize w g c f false a m d).2 = c &&& bitNot w f := by
  rw [fst_eq] at hp
  simp [RadioButtonLabeled_BitWize, hp, hsel, castT_of_lt (and_bitNot_lt w f hc)]

theorem snd_masked {w : Nat} (g : ImGuiItem) {c f m : Nat} (o a d : Bool)
    (hc : c < 2 ^ w) (hf : f < 2 ^ w) (hsel : c &&& f = 0) (hm : m ≠ 0) (hfm : f &&& m ≠ 0)
    (hp : (RadioButtonLabeled_BitWize w g c f o a m d).1 = true) :
    (RadioButtonLabeled_BitWize w g c f o a m d).2 = (c &&& bitNot w m) ||| f := by
  simp only [fst_eq, hsel, bne_self_eq_false] at hp
  have h1 := and_bitNot_lt w m hc
  cases o <;>
    simp [RadioButtonLabeled_BitWize, hp, hsel, hm, hfm, castT_of_lt h1,
      castT_of_lt (Nat.or_lt_two_pow h1 hf)]

theorem snd_masked_skip {w : Nat} (g : ImGuiItem) {c f m : Nat} (o a d : Bool)
    (hsel : c &&& f = 0) (hm : m ≠ 0) (hfm : f &&& m = 0) :
    (RadioButtonLabeled_BitWize w g c f o a m d).2 = c := by
  cases o <;> simp [RadioButtonLabeled_BitWize, hsel, hm, hfm]

theorem snd_not_pressed {w : Nat} (g : ImGuiItem) (c f : Nat) (o a : Bool) (m : Nat) (d : Bool)
    (hp : (RadioButtonLabeled_BitWize w g c f o a m d).1 = false) :
    (RadioButtonLabeled_BitWize w g c f o a m d).2 = c := by
  rw [fst_eq] at hp
  simp [RadioButtonLabeled_BitWize, hp]

theorem snd_set (w : Nat) (g : ImGuiItem) {c f : Nat} (a d : Bool) (hsel : c &&& f = 0)
    (hp : (RadioButtonLabeled_BitWize w g c f true a 0 d).1 = true) :
    (RadioButtonLabeled_BitWize w g c f true a 0 d).2 = f := by
  simp only [fst_eq, hsel, bne_self_eq_false] at hp
  simp [RadioButtonLabeled_BitWize, hp, hsel]

theorem snd_selected_one (w : Nat) (g : ImGuiItem) {c f : Nat} (a : Bool) (m : Nat) (d : Bool)
    (hsel : c &&& f ≠ 0)
    (hp : (RadioButtonLabeled_BitWize w g c f true a m d).1 = true) :
    (RadioButtonLabeled_BitWize w g c f true a m d).2 = if a then c else 0 := by
  rw [fst_eq] at hp
  cases a <;> simp [RadioButtonLabeled_BitWize, hp, hsel, castT]

theorem castT_or_ne_zero {w f : Nat} (x : Nat) (hf : f < 2 ^ w) (hf0 : f ≠ 0) :
    castT w (x ||| f) ≠ 0 := by
  obtain ⟨i, hi⟩ := Nat.ne_zero_implies_bit_true hf0
  have hiw : i < w := by
    by_contra hge
    have := Nat.testBit_lt_two_pow
      (Nat.lt_of_lt_of_le hf (Nat.pow_le_pow_right (by decide) (Nat.le_of_not_lt hge)))
    simp [this] at hi
  intro h0
  have hb : (castT w (x ||| f)).testBit i = true := by
    simp [castT, Nat.testBit_mod_two_pow, hiw, hi]
  simp [h0] at hb

/-! ## Lemmas on the texture helpers -/

/-- The seven teardown steps of `DestroyTexture`, each with the handle that guards it. -/
theorem DestroyTexture_some (o : VulkanImageObject) :
    DestroyTexture (some o) = .returned (some {})
      ((List.filter (fun p => decide (p.1 ≠ VK_NULL_HANDLE))
        [(o.buf, Event.vkDestroyBuffer o.buf), (o.bufMem, Event.vkFreeMemory o.bufMem),
          (o.view, Event.vkDestroyImageView o.view), (o.img, Event.vkDestroyImage o.img),
          (o.imgMem, Event.vkFreeMemory o.imgMem), (o.sam, Event.vkDestroySampler o.sam),
          (o.descriptor,
            Event.ImGui_ImplVulkanH_Destroy_UserTexture_Descriptor o.descriptor)]).map
        Prod.snd) := by
  obtain ⟨imgMem, img, bufMem, buf, sam, view, descriptor⟩ := o
  simp only [DestroyTexture, bind, Outcome.bind, Outcome.prepend, pure, emit]
  by_cases h1 : buf = VK_NULL_HANDLE <;> by_cases h2 : bufMem = VK_NULL_HANDLE <;>
  by_cases h3 : view = VK_NULL_HANDLE <;> by_cases h4 : img = VK_NULL_HANDLE <;>
  by_cases h5 : imgMem = VK_NULL_HANDLE <;> by_cases h6 : sam = VK_NULL_HANDLE <;>
  by_cases h7 : descriptor = VK_NULL_HANDLE <;>
  simp [h1, h2, h3, h4, h5, h6, h7, List.filter_cons]

theorem DestroyTexture_null_object :
    DestroyTexture (some {}) = .returned (some {}) [] := by
  decide

theorem check_vk_result_of_nonneg {err : Int} (h : 0 ≤ err) :
    check_vk_result err
      = .returned () (if err = 0 then [] else [Event.fprintf_stderr_VkResult err]) := by
  unfold check_vk_result
  by_cases h0 : err = 0
  · simp [h0, pure]
  · have : ¬ err < 0 := not_lt.mpr h
    simp [h0, this, bind, Outcome.bind, Outcome.prepend, emit, pure]

theorem prepend_returned {α : Type} (t t2 : List Event) (a : α) :
    Outcome.prepend t (.returned a t2) = .returned a (t ++ t2) := rfl

theorem prepend_aborted {α : Type} (t t2 : List Event) :
    Outcome.prepend t (.aborted t2 : Outcome α) = .aborted (t ++ t2) := rfl

theorem returned_bind {α β : Type} (a : α) (t : List Event) (f : α → Outcome β) :
    (Outcome.returned a t >>= f) = (f a).prepend t := rfl

theorem aborted_bind {α β : Type} (t : List Event) (f : α → Outcome β) :
    ((Outcome.aborted t : Outcome α) >>= f) = .aborted t := rfl

theorem pure_bind_outcome {α β : Type} (a : α) (f : α → Outcome β) :
    ((pure a : Outcome α) >>= f) = f a := by
  show (f a).prepend [] = f a
  cases f a <;> rfl

theorem emit_bind {β : Type} (e : Event) (f : Unit → Outcome β) :
    (emit e >>= f) = (f ()).prepend [e] := returned_bind () [e] f

theorem check_vk_result_bind {β : Type} {err : Int} (h : 0 ≤ err) (f : Unit → Outcome β) :
    (check_vk_result err >>= f)
      = (f ()).prepend (if err = 0 then [] else [Event.fprintf_stderr_VkResult err]) := by
  rw [check_vk_result_of_nonneg h, returned_bind]

theorem ite_emit_bind {β : Type} (c : Prop) [Decidable c] (e : Event) (f : PUnit → Outcome β) :
    ((if c then emit e else pure PUnit.unit) >>= f)
      = (f ()).prepend (if c then [e] else []) := by
  by_cases h : c
  · simp only [h, if_true]; exact emit_bind e f
  · simp only [h, if_false]; rw [pure_bind_outcome]; cases f () <;> rfl

theorem pure_eq_returned {α : Type} (a : α) : (pure a : Outcome α) = .returned a [] := rfl

theorem CreateTextureFromBuffer_returns (vk : VkDriver) (cmd : Handle) (buffer : List Nat)
    (w h n : Int) (hvk : vk.noNegativeResult) :
    ∃ t, CreateTextureFromBuffer vk cmd buffer w h n
      = .returned ⟨vk.vkAllocateMemory_img.2, vk.vkCreateImage.2, vk.vkAllocateMemory_buf.2,
          vk.vkCreateBuffer.2, vk.vkCreateSampler.2, vk.vkCreateImageView.2,
          vk.Create_UserTexture_Descriptor⟩ t := by
  obtain ⟨h1, h2, h3, h4, h5, h6, h7, h8, h9, h10, h11⟩ := hvk
  simp only [CreateTextureFromBuffer, emit_bind, check_vk_result_bind, ite_emit_bind,
    h1, h2, h3, h4, h5, h6, h7, h8, h9, h10, h11]
  by_cases hfl : vk.vkFlushMappedMemoryRanges ≠ 0
  · rw [if_pos hfl]
    simp only [pure_eq_returned, prepend_returned]
    exact ⟨_, rfl⟩
  · rw [if_neg hfl]
    simp only [pure_bind_outcome, pure_eq_returned, prepend_returned]
    exact ⟨_, rfl⟩

theorem CreateTextureFromFile_none (vk : VkDriver) (stbi : StbiImage) (cmd : Handle)
    (inFile : String) (h : stbi.imgDatas = none ∨ stbi.w = 0 ∨ stbi.h = 0) :
    CreateTextureFromFile vk stbi cmd inFile
      = .returned none [Event.printf_file_to_load inFile, Event.stbi_load inFile] := by
  obtain ⟨d, w, hh, ch⟩ := stbi
  simp only [CreateTextureFromFile, emit_bind]
  cases d with
  | none => rfl
  | some data =>
    have hc : ¬ (w ≠ 0 ∧ hh ≠ 0) := by
      rcases h with h | h | h
      · cases h
      · exact fun hx => hx.1 h
      · exact fun hx => hx.2 h
    simp only [hc, if_false, pure_bind_outcome, pure_eq_returned, prepend_returned]
    rfl

theorem CreateTextureFromFile_some (vk : VkDriver) (stbi : StbiImage) (cmd : Handle)
    (inFile : String) (data : List Nat) (hd : stbi.imgDatas = some data) (hw : stbi.w ≠ 0)
    (hh : stbi.h ≠ 0) :
    CreateTextureFromFile vk stbi cmd inFile
      = match CreateTextureFromBuffer vk cmd data stbi.w stbi.h 4 with
        | .returned obj t =>
          .returned (some obj)
            ([Event.printf_file_to_load inFile, Event.stbi_load inFile] ++ t
              ++ [Event.stbi_image_free])
        | .aborted t =>
          .aborted ([Event.printf_file_to_load inFile, Event.stbi_load inFile] ++ t) := by
  obtain ⟨d, w, h, ch⟩ := stbi
  simp only at hd hw hh
  subst hd
  simp only [CreateTextureFromFile, emit_bind]
  rw [if_pos (⟨hw, hh⟩ : w ≠ 0 ∧ h ≠ 0)]
  cases hb : CreateTextureFromBuffer vk cmd data w h 4 with
  | returned obj t =>
    simp [returned_bind, pure_eq_returned, prepend_returned]
  | aborted t =>
    simp [aborted_bind, prepend_aborted]

/-! ## The radio button claims -/

/-- C1: with the default options (`vOneOrZeroAtTime = false`, mask `0`) a press toggles the
flag: the new container is `c | f` when `(c & f) == 0` and `c & ~f` otherwise, and every bit
of `c` outside `f` keeps its value. -/
theorem C1_default_press_toggles (w : Nat) (g : ImGuiItem) (c f : Nat) (a d : Bool)
    (hc : c < 2 ^ w) (hf : f < 2 ^ w)
    (hp : (RadioButtonLabeled_BitWize w g c f false a 0 d).1 = true) :
    (RadioButtonLabeled_BitWize w g c f false a 0 d).2
        = (if c &&& f = 0 then c ||| f else c &&& bitNot w f) ∧
      ∀ i, f.testBit i = false →
        ((RadioButtonLabeled_BitWize w g c f false a 0 d).2).testBit i = c.testBit i := by
  by_cases hsel : c &&& f = 0
  · rw [snd_add g a d hc hf hsel hp]
    refine ⟨by simp [hsel], fun i hi => ?_⟩
    simp [hi]
  · rw [snd_remove g a 0 d hc hsel hp]
    refine ⟨by simp [hsel], fun i hi => ?_⟩
    rw [testBit_and_bitNot hc]
    simp [hi]

theorem C1_default_press_toggles_witness :
    (5 : Nat) < 2 ^ 32 ∧ (2 : Nat) < 2 ^ 32 ∧
    (RadioButtonLabeled_BitWize 32 ⟨false, true, true⟩ 5 2 false true 0 false).1 = true ∧
    ((RadioButtonLabeled_BitWize 32 ⟨false, true, true⟩ 5 2 false true 0 false).2
        = (if 5 &&& 2 = 0 then 5 ||| 2 else 5 &&& bitNot 32 2) ∧
      ∀ i, (2 : Nat).testBit i = false →
        ((RadioButtonLabeled_BitWize 32 ⟨false, true, true⟩ 5 2 false true 0 false).2).testBit i
          = (5 : Nat).testBit i) :=
  ⟨by decide, by decide, by decide,
    C1_default_press_toggles 32 ⟨false, true, true⟩ 5 2 true false (by decide) (by decide)
      (by decide)⟩

/-- C2: `RadioButtonLabeled_BitWize` returns exactly what `RadioButtonLabeled` returned for
the same label state, and whenever that value is `false` the container is left as it was,
for every combination of options. -/
theorem C2_result_and_frame (w : Nat) (g : ImGuiItem) (c f : Nat) (o a : Bool) (m : Nat)
    (d : Bool) :
    (RadioButtonLabeled_BitWize w g c f o a m d).1
        = RadioButtonLabeled g ((c &&& f) != 0) d ∧
      (RadioButtonLabeled g ((c &&& f) != 0) d = false →
        (RadioButtonLabeled_BitWize w g c f o a m d).2 = c) :=
  ⟨rfl, fun h => snd_not_pressed g c f o a m d h⟩

/-- C3: with `vOneOrZeroAtTime = true` and mask `0`, a press on an unselected flag sets the
container to exactly `f`, so no bit that was set before stays set. -/
theorem C3_one_at_a_time_sets_flag (w : Nat) (g : ImGuiItem) (c f : Nat) (a d : Bool)
    (hsel : c &&& f = 0)
    (hp : (RadioButtonLabeled_BitWize w g c f true a 0 d).1 = true) :
    (RadioButtonLabeled_BitWize w g c f true a 0 d).2 = f ∧
      c &&& (RadioButtonLabeled_BitWize w g c f true a 0 d).2 = 0 := by
  rw [snd_set w g a d hsel hp]
  exact ⟨rfl, hsel⟩

theorem C3_one_at_a_time_sets_flag_witness :
    (6 : Nat) &&& 1 = 0 ∧
    (RadioButtonLabeled_BitWize 32 ⟨false, true, true⟩ 6 1 true true 0 false).1 = true ∧
    ((RadioButtonLabeled_BitWize 32 ⟨false, true, true⟩ 6 1 true true 0 false).2 = 1 ∧
      6 &&& (RadioButtonLabeled_BitWize 32 ⟨false, true, true⟩ 6 1 true true 0 false).2 = 0) :=
  ⟨by decide, by decide,
    C3_one_at_a_time_sets_flag 32 ⟨false, true, true⟩ 6 1 true false (by decide) (by decide)⟩

/-- C4: with `vOneOrZeroAtTime = true`, a press on a flag that is already selected leaves the
container unchanged when `vAlwaysOne` is true and sets it to `0` when `vAlwaysOne` is false,
whatever the mask. -/
theorem C4_press_on_selected (w : Nat) (g : ImGuiItem) (c f m : Nat) (d : Bool)
    (hsel : c &&& f ≠ 0)
    (hp : RadioButtonLabeled g true d = true) :
    (RadioButtonLabeled_BitWize w g c f true true m d).2 = c ∧
      (RadioButtonLabeled_BitWize w g c f true false m d).2 = 0 := by
  have hp' : ∀ a, (RadioButtonLabeled_BitWize w g c f true a m d).1 = true := by
    intro a; rw [fst_eq]; simpa [hsel] using hp
  exact ⟨by simpa using snd_selected_one w g true m d hsel (hp' true),
    by simpa using snd_selected_one w g false m d hsel (hp' false)⟩

theorem C4_press_on_selected_witness :
    (3 : Nat) &&& 1 ≠ 0 ∧ RadioButtonLabeled ⟨false, true, true⟩ true false = true ∧
    ((RadioButtonLabeled_BitWize 32 ⟨false, true, true⟩ 3 1 true true 0 false).2 = 3 ∧
      (RadioButtonLabeled_BitWize 32 ⟨false, true, true⟩ 3 1 true false 0 false).2 = 0) :=
  ⟨by decide, by decide,
    C4_press_on_selected 32 ⟨false, true, true⟩ 3 1 0 false (by decide) (by decide)⟩

/-- C5: radio behaviour. With `vOneOrZeroAtTime = true`, `vAlwaysOne = true` and a non-zero
flag, a container that is non-zero before the call is non-zero after it, whatever the mask
and whether or not the button is pressed. -/
theorem C5_always_one_keeps_nonzero (w : Nat) (g : ImGuiItem) (c f m : Nat) (d : Bool)
    (hf : f < 2 ^ w) (hf0 : f ≠ 0) (hc0 : c ≠ 0) :
    (RadioButtonLabeled_BitWize w g c f true true m d).2 ≠ 0 := by
  have key := castT_or_ne_zero (castT w (c &&& bitNot w m)) hf hf0
  simp only [RadioButtonLabeled_BitWize]
  split_ifs <;> first | exact hc0 | exact hf0 | exact key | simp_all

theorem C5_always_one_keeps_nonzero_witness :
    (2 : Nat) < 2 ^ 32 ∧ (2 : Nat) ≠ 0 ∧ (4 : Nat) ≠ 0 ∧
    (RadioButtonLabeled_BitWize 32 ⟨false, true, true⟩ 4 2 true true 6 false).2 ≠ 0 :=
  ⟨by decide, by decide, by decide,
    C5_always_one_keeps_nonzero 32 ⟨false, true, true⟩ 4 2 6 false (by decide) (by decide)
      (by decide)⟩

/-- C6 fails as stated, in two ways.  At container `3`, flag `1`, mask `1`,
`vOneOrZeroAtTime = true` and `vAlwaysOne = false`, a press on the selected flag sets the
container to `0` (remove all): bit 1 lies outside the mask, was set before the call and is
clear after it.  At container `0`, flag `3`, mask `1`, a press on the unselected flag sets the
container to `3` (add): bit 1 lies outside the mask, was clear before and is set after. -/
theorem C6_outside_mask_counterexample :
    (RadioButtonLabeled_BitWize 32 ⟨false, true, true⟩ 3 1 true false 1 false = (true, 0) ∧
        (1 : Nat).testBit 1 = false ∧ (3 : Nat).testBit 1 = true ∧
        ((RadioButtonLabeled_BitWize 32 ⟨false, true, true⟩ 3 1 true false 1 false).2).testBit 1
          = false) ∧
      (RadioButtonLabeled_BitWize 32 ⟨false, true, true⟩ 0 3 false true 1 false = (true, 3) ∧
        (1 : Nat).testBit 1 = false ∧ (0 : Nat).testBit 1 = false ∧
        ((RadioButtonLabeled_BitWize 32 ⟨false, true, true⟩ 0 3 false true 1 false).2).testBit 1
          = true) := by
  decide

/-- C6, amended: with a non-zero mask `m`, every bit of the container that lies outside `m`
and outside the flag `f` is the same after the call as before it, for every setting of
`vOneOrZeroAtTime` and `vAlwaysOne`, except in a press on an already selected flag with
`vOneOrZeroAtTime = true` and `vAlwaysOne = false`, which sets the container to `0` (remove
all); so, outside that case, when `f` lies inside `m` the bits outside `m` are unchanged. -/
theorem C6_bits_outside_mask_and_flag (w : Nat) (g : ImGuiItem) (c f m : Nat) (o a d : Bool)
    (hc : c < 2 ^ w) (hm : m ≠ 0) :
    (¬ (o = true ∧ a = false ∧ c &&& f ≠ 0 ∧ RadioButtonLabeled g true d = true) →
        (∀ i, m.testBit i = false → f.testBit i = false →
          ((RadioButtonLabeled_BitWize w g c f o a m d).2).testBit i = c.testBit i) ∧
        ((∀ i, f.testBit i = true → m.testBit i = true) →
          ∀ i, m.testBit i = false →
            ((RadioButtonLabeled_BitWize w g c f o a m d).2).testBit i = c.testBit i)) ∧
      (o = true → a = false → c &&& f ≠ 0 → RadioButtonLabeled g true d = true →
        (RadioButtonLabeled_BitWize w g c f o a m d).2 = 0) := by
  have hbit : ∀ i, ¬ i < w → c.testBit i = false := fun i hi =>
    Nat.testBit_lt_two_pow
      (Nat.lt_of_lt_of_le hc (Nat.pow_le_pow_right (by decide) (Nat.le_of_not_lt hi)))
  have hmain : ¬ (o = true ∧ a = false ∧ c &&& f ≠ 0 ∧ RadioButtonLabeled g true d = true) →
      ∀ i, m.testBit i = false → f.testBit i = false →
        ((RadioButtonLabeled_BitWize w g c f o a m d).2).testBit i = c.testBit i := by
    intro hex i hmi hfi
    by_cases hsel : c &&& f = 0
    · by_cases hfm : f &&& m = 0
      · rw [snd_masked_skip g o a d hsel hm hfm]
      · by_cases hp : RadioButtonLabeled g false d = true
        · have hci : (c.testBit i && decide (i < w)) = c.testBit i := by
            by_cases hi : i < w
            · simp [hi]
            · simp [hi, hbit i hi]
          cases o <;>
            simp [RadioButtonLabeled_BitWize, hsel, hm, hfm, hp, castT, Nat.testBit_mod_two_pow,
              testBit_bitNot, hmi, hfi, hci] <;>
            (intro hi; by_contra hw; rw [hbit i hw] at hi; cases hi)
        · have hnp : (RadioButtonLabeled_BitWize w g c f o a m d).1 = false := by
            rw [fst_eq]; simpa [hsel] using hp
          rw [snd_not_pressed g c f o a m d hnp]
    · by_cases hp : RadioButtonLabeled g true d = true
      · have hp1 : ∀ o, (RadioButtonLabeled_BitWize w g c f o a m d).1 = true := by
          intro o; rw [fst_eq]; simpa [hsel] using hp
        cases o with
        | false =>
          rw [snd_remove g a m d hc hsel (hp1 false), testBit_and_bitNot hc]
          simp [hfi]
        | true =>
          cases a with
          | true =>
            have := snd_selected_one w g true m d hsel (hp1 true)
            rw [this]; rfl
          | false => exact absurd ⟨rfl, rfl, hsel, hp⟩ hex
      · have hnp : (RadioButtonLabeled_BitWize w g c f o a m d).1 = false := by
          rw [fst_eq]; simpa [hsel] using hp
        rw [snd_not_pressed g c f o a m d hnp]
  refine ⟨fun hex => ⟨hmain hex, fun hsub i hmi => ?_⟩, fun ho ha hsel hp => ?_⟩
  · have hfi : f.testBit i = false := by
      by_contra hfi
      have := hsub i (by simpa using hfi)
      rw [hmi] at this
      cases this
    exact hmain hex i hmi hfi
  · subst ho ha
    have hp1 : (RadioButtonLabeled_BitWize w g c f true false m d).1 = true := by
      rw [fst_eq]; simpa [hsel] using hp
    simpa using snd_selected_one w g false m d hsel hp1

theorem C6_bits_outside_mask_and_flag_witness :
    (6 : Nat) < 2 ^ 32 ∧ (3 : Nat) ≠ 0 ∧
    ((¬ (false = true ∧ true = false ∧ 6 &&& 2 ≠ 0 ∧
          RadioButtonLabeled ⟨false, true, true⟩ true false = true) →
        (∀ i, (3 : Nat).testBit i = false → (2 : Nat).testBit i = false →
          ((RadioButtonLabeled_BitWize 32 ⟨false, true, true⟩ 6 2 false true 3 false).2).testBit i
            = (6 : Nat).testBit i) ∧
        ((∀ i, (2 : Nat).testBit i = true → (3 : Nat).testBit i = true) →
          ∀ i, (3 : Nat).testBit i = false →
            ((RadioButtonLabeled_BitWize 32 ⟨false, true, true⟩ 6 2 false true 3
              false).2).testBit i = (6 : Nat).testBit i)) ∧
      (false = true → true = false → 6 &&& 2 ≠ 0 →
        RadioButtonLabeled ⟨false, true, true⟩ true false = true →
        (RadioButtonLabeled_BitWize 32 ⟨false, true, true⟩ 6 2 false true 3 false).2 = 0)) :=
  ⟨by decide, by decide,
    C6_bits_outside_mask_and_flag 32 ⟨false, true, true⟩ 6 2 3 false true false (by decide)
      (by decide)⟩

/-- C7: with a non-zero mask `m`, a press on an unselected flag `f` gives `(c & ~m) | f` when
`(f & m) != 0` and leaves the container unchanged when `(f & m) == 0`; the outcome does not
depend on `vOneOrZeroAtTime`. -/
theorem C7_masked_press_on_unselected (w : Nat) (g : ImGuiItem) (c f m : Nat) (o a d : Bool)
    (hc : c < 2 ^ w) (hf : f < 2 ^ w) (hm : m ≠ 0) (hsel : c &&& f = 0)
    (hp : RadioButtonLabeled g false d = true) :
    (RadioButtonLabeled_BitWize w g c f o a m d).2
        = (if f &&& m ≠ 0 then (c &&& bitNot w m) ||| f else c) ∧
      RadioButtonLabeled_BitWize w g c f true a m d
        = RadioButtonLabeled_BitWize w g c f false a m d := by
  have hp' : ∀ o, (RadioButtonLabeled_BitWize w g c f o a m d).1 = true := by
    intro o; rw [fst_eq]; simpa [hsel] using hp
  have hval : ∀ o, (RadioButtonLabeled_BitWize w g c f o a m d).2
      = (if f &&& m ≠ 0 then (c &&& bitNot w m) ||| f else c) := by
    intro o
    by_cases hfm : f &&& m = 0
    · rw [snd_masked_skip g o a d hsel hm hfm]; simp [hfm]
    · rw [snd_masked g o a d hc hf hsel hm hfm (hp' o)]; simp [hfm]
  exact ⟨hval o, Prod.ext ((hp' true).trans (hp' false).symm)
    ((hval true).trans (hval false).symm)⟩

theorem C7_masked_press_on_unselected_witness :
    (12 : Nat) < 2 ^ 32 ∧ (2 : Nat) < 2 ^ 32 ∧ (6 : Nat) ≠ 0 ∧ (12 : Nat) &&& 2 = 0 ∧
    RadioButtonLabeled ⟨false, true, true⟩ false false = true ∧
    ((RadioButtonLabeled_BitWize 32 ⟨false, true, true⟩ 12 2 true true 6 false).2
        = (if 2 &&& 6 ≠ 0 then (12 &&& bitNot 32 6) ||| 2 else 12) ∧
      RadioButtonLabeled_BitWize 32 ⟨false, true, true⟩ 12 2 true true 6 false
        = RadioButtonLabeled_BitWize 32 ⟨false, true, true⟩ 12 2 false true 6 false) :=
  ⟨by decide, by decide, by decide, by decide, by decide,
    C7_masked_press_on_unselected 32 ⟨false, true, true⟩ 12 2 6 true true false
      (by decide) (by decide) (by decide) (by decide) (by decide)⟩

/-! ## The texture claims -/

/-- C8: for a non-null `VulkanImageObject`, `DestroyTexture` returns with all seven handles
equal to `VK_NULL_HANDLE`, and the calls it issued are exactly, in order, the destroy or free
calls of those handles that were non-null on entry; for a null pointer it issues no call. -/
theorem C8_DestroyTexture_postcondition (o : VulkanImageObject) :
    DestroyTexture (some o)
        = .returned
          (some ⟨VK_NULL_HANDLE, VK_NULL_HANDLE, VK_NULL_HANDLE, VK_NULL_HANDLE, VK_NULL_HANDLE,
            VK_NULL_HANDLE, VK_NULL_HANDLE⟩)
          ((List.filter (fun p => decide (p.1 ≠ VK_NULL_HANDLE))
            [(o.buf, Event.vkDestroyBuffer o.buf), (o.bufMem, Event.vkFreeMemory o.bufMem),
              (o.view, Event.vkDestroyImageView o.view), (o.img, Event.vkDestroyImage o.img),
              (o.imgMem, Event.vkFreeMemory o.imgMem), (o.sam, Event.vkDestroySampler o.sam),
              (o.descriptor,
                Event.ImGui_ImplVulkanH_Destroy_UserTexture_Descriptor o.descriptor)]).map
            Prod.snd) ∧
      DestroyTexture none = .returned none [] :=
  ⟨DestroyTexture_some o, rfl⟩

/-- C9: `DestroyTexture` is idempotent.  After a first call on an object, a second call on the
resulting object issues no call and leaves it unchanged, and the `shared_ptr` deleter run on
it issues only the `delete`; so an explicit teardown followed by the deleter issues the calls
of the first teardown and the `delete`, and those calls form a sublist of the list with one
destroy or free call per handle: each handle is destroyed at most once. -/
theorem C9_DestroyTexture_idempotent (o : VulkanImageObject) :
    ∃ t o1, DestroyTexture (some o) = .returned (some o1) t ∧
      DestroyTexture (some o1) = .returned (some o1) [] ∧
      sharedPtrDeleter o1 = .returned () [Event.delete_VulkanImageObject] ∧
      (DestroyTexture (some o) >>= DestroyTexture) = DestroyTexture (some o) ∧
      (DestroyTexture (some o) >>= fun _ => sharedPtrDeleter o1)
        = .returned () (t ++ [Event.delete_VulkanImageObject]) ∧
      t.Sublist
        [Event.vkDestroyBuffer o.buf, Event.vkFreeMemory o.bufMem,
          Event.vkDestroyImageView o.view, Event.vkDestroyImage o.img,
          Event.vkFreeMemory o.imgMem, Event.vkDestroySampler o.sam,
          Event.ImGui_ImplVulkanH_Destroy_UserTexture_Descriptor o.descriptor] := by
  have hdel : sharedPtrDeleter {} = .returned () [Event.delete_VulkanImageObject] := by
    simp only [sharedPtrDeleter, DestroyTexture_null_object, returned_bind]
    rfl
  refine ⟨_, _, DestroyTexture_some o, DestroyTexture_null_object, hdel, ?_, ?_, ?_⟩
  · rw [DestroyTexture_some, returned_bind, DestroyTexture_null_object, prepend_returned,
      List.append_nil]
  · rw [DestroyTexture_some, returned_bind, hdel, prepend_returned]
  · exact (List.filter_sublist _).map Prod.snd

/-- C10 fails as stated: with decoded pixel data of non-zero width and height but a
`vkCreateImage` that answers `-1`, `CreateTextureFromFile` does not return a texture: the run
ends in `abort()` inside `check_vk_result`. -/
theorem C10_abort_counterexample :
    (onePixel.imgDatas ≠ none ∧ onePixel.w ≠ 0 ∧ onePixel.h ≠ 0) ∧
      CreateTextureFromFile failingDriver onePixel 9 "img1.png"
        = .aborted [Event.printf_file_to_load "img1.png", Event.stbi_load "img1.png",
            Event.new_VulkanImageObject, Event.vkCreateImage 1 1,
            Event.fprintf_stderr_VkResult (-1)] ∧
      ¬ ((∃ obj t, CreateTextureFromFile failingDriver onePixel 9 "img1.png"
            = .returned (some obj) t)
          ↔ (onePixel.imgDatas ≠ none ∧ onePixel.w ≠ 0 ∧ onePixel.h ≠ 0)) := by
  have hev : CreateTextureFromFile failingDriver onePixel 9 "img1.png"
      = .aborted [Event.printf_file_to_load "img1.png", Event.stbi_load "img1.png",
          Event.new_VulkanImageObject, Event.vkCreateImage 1 1,
          Event.fprintf_stderr_VkResult (-1)] := by decide
  have hok : onePixel.imgDatas ≠ none ∧ onePixel.w ≠ 0 ∧ onePixel.h ≠ 0 := by decide
  refine ⟨hok, hev, fun hiff => ?_⟩
  obtain ⟨obj, t, he⟩ := hiff.mpr hok
  rw [hev] at he
  cases he

/-- C10, amended: for every driver, `CreateTextureFromFile` returns a non-null texture only
if `stbi_load` gave non-null pixel data with non-zero width and height; with such data its
outcome is that of `CreateTextureFromBuffer` on that data with the decoded width and height
and `4` channels: the texture it returned, or its abort; and without such data it returns null
having issued no Vulkan call.  When no checked Vulkan call yields a negative `VkResult`, it
returns a non-null texture if and only if `stbi_load` gave such data, and that texture is the
one returned by `CreateTextureFromBuffer`. -/
theorem C10_CreateTextureFromFile_result (vk : VkDriver) (stbi : StbiImage) (cmd : Handle)
    (inFile : String) :
    ((∃ obj t, CreateTextureFromFile vk stbi cmd inFile = .returned (some obj) t) →
        (stbi.imgDatas ≠ none ∧ stbi.w ≠ 0 ∧ stbi.h ≠ 0)) ∧
      (∀ data, stbi.imgDatas = some data → stbi.w ≠ 0 → stbi.h ≠ 0 →
        CreateTextureFromFile vk stbi cmd inFile
          = match CreateTextureFromBuffer vk cmd data stbi.w stbi.h 4 with
            | .returned obj t =>
              .returned (some obj)
                ([Event.printf_file_to_load inFile, Event.stbi_load inFile] ++ t
                  ++ [Event.stbi_image_free])
            | .aborted t =>
              .aborted ([Event.printf_file_to_load inFile, Event.stbi_load inFile] ++ t)) ∧
      ((stbi.imgDatas = none ∨ stbi.w = 0 ∨ stbi.h = 0) →
        CreateTextureFromFile vk stbi cmd inFile
          = .returned none [Event.printf_file_to_load inFile, Event.stbi_load inFile]) ∧
      (vk.noNegativeResult →
        ((∃ obj t, CreateTextureFromFile vk stbi cmd inFile = .returned (some obj) t)
          ↔ (stbi.imgDatas ≠ none ∧ stbi.w ≠ 0 ∧ stbi.h ≠ 0)) ∧
        (∀ data, stbi.imgDatas = some data → stbi.w ≠ 0 → stbi.h ≠ 0 →
          ∃ obj t, CreateTextureFromBuffer vk cmd data stbi.w stbi.h 4 = .returned obj t ∧
            CreateTextureFromFile vk stbi cmd inFile
              = .returned (some obj)
                  ([Event.printf_file_to_load inFile, Event.stbi_load inFile] ++ t
                    ++ [Event.stbi_image_free]))) := by
  have honly : (∃ obj t, CreateTextureFromFile vk stbi cmd inFile = .returned (some obj) t) →
      (stbi.imgDatas ≠ none ∧ stbi.w ≠ 0 ∧ stbi.h ≠ 0) := by
    intro hret
    by_contra hno
    have hbad : stbi.imgDatas = none ∨ stbi.w = 0 ∨ stbi.h = 0 := by
      by_cases h1 : stbi.imgDatas = none
      · exact Or.inl h1
      · by_cases h2 : stbi.w = 0
        · exact Or.inr (Or.inl h2)
        · by_cases h3 : stbi.h = 0
          · exact Or.inr (Or.inr h3)
          · exact absurd ⟨h1, h2, h3⟩ hno
    obtain ⟨obj, t, he⟩ := hret
    rw [CreateTextureFromFile_none vk stbi cmd inFile hbad] at he
    cases he
  refine ⟨honly, CreateTextureFromFile_some vk stbi cmd inFile,
    CreateTextureFromFile_none vk stbi cmd inFile, fun hvk => ?_⟩
  have hsome : ∀ data, stbi.imgDatas = some data → stbi.w ≠ 0 → stbi.h ≠ 0 →
      ∃ obj t, CreateTextureFromBuffer vk cmd data stbi.w stbi.h 4 = .returned obj t ∧
        CreateTextureFromFile vk stbi cmd inFile
          = .returned (some obj)
              ([Event.printf_file_to_load inFile, Event.stbi_load inFile] ++ t
                ++ [Event.stbi_image_free]) := by
    intro data hd hw hh
    obtain ⟨t, ht⟩ := CreateTextureFromBuffer_returns vk cmd data stbi.w stbi.h 4 hvk
    refine ⟨_, t, ht, ?_⟩
    rw [CreateTextureFromFile_some vk stbi cmd inFile data hd hw hh, ht]
  refine ⟨⟨honly, fun hok => ?_⟩, hsome⟩
  obtain ⟨hd, hw, hh⟩ := hok
  obtain ⟨data, hdata⟩ := Option.ne_none_iff_exists'.mp hd
  obtain ⟨obj, t, _, he⟩ := hsome data hdata hw hh
  exact ⟨obj, _, he⟩

/-- A run of `CreateTextureFromFile` with an accepting driver and a decoded pixel returns a
texture. -/
theorem C10_CreateTextureFromFile_result_witness :
    acceptingDriver.noNegativeResult ∧
    (onePixel.imgDatas ≠ none ∧ onePixel.w ≠ 0 ∧ onePixel.h ≠ 0) ∧
    (∃ obj t, CreateTextureFromFile acceptingDriver onePixel 9 "img1.png"
        = .returned (some obj) t) ∧
    (failingDriver.noNegativeResult → False) ∧
    CreateTextureFromFile failingDriver ⟨none, 0, 0, 0⟩ 9 "img1.png"
      = .returned none [Event.printf_file_to_load "img1.png", Event.stbi_load "img1.png"] :=
  ⟨by decide, by decide,
    ((C10_CreateTextureFromFile_result acceptingDriver onePixel 9 "img1.png").2.2.2
      (by decide)).1.mpr (by decide),
    by decide,
    (C10_CreateTextureFromFile_result failingDriver ⟨none, 0, 0, 0⟩ 9 "img1.png").2.2.1
      (Or.inl rfl)⟩

/-! ## Lemmas on reading the result of a dialog -/

theorem foldl_append_singleton {α β : Type} (f : α → β) (l : List α) (init : List β) :
    l.foldl (fun acc s => acc ++ [f s]) init = init ++ l.map f := by
  induction l generalizing init with
  | nil => simp
  | cons a l ih => simp [ih]

theorem foldl_range_table {α β : Type} (g : α → β) (table : List α)
    (step : List β → Nat → List β)
    (hstep : ∀ acc i, step acc i = acc ++ (table[i]?.map g).toList) (n : Nat) :
    (List.range n).foldl step [] = (table.take n).map g := by
  induction n with
  | zero => simp
  | succ n ih =>
    rw [List.range_succ, List.foldl_append, ih, List.take_succ, List.foldl_cons, List.foldl_nil,
      hstep]
    cases h : table[n]? <;> simp

/-! ## The pane, result and open mode claims -/

/-- C11: for a non-null `vCantContinue`, on return of `InfosPane` the `bool` behind it equals
`canValidateDialog` as the checkbox left it in that call; `canValidateDialog` starts `false`,
so as long as no checkbox call ticks the box the value written is `false`; for a null
`vCantContinue` nothing is written. -/
theorem C11_InfosPane_writes_checkbox_state (checkbox : Bool → Bool) (canValidate : Bool)
    (vFilter : String) (vUserDatas : Option String) (old : Bool) :
    (InfosPane checkbox canValidate vFilter vUserDatas (some old)).canValidateDialog
        = checkbox canValidate ∧
      (InfosPane checkbox canValidate vFilter vUserDatas (some old)).vCantContinue
        = some (checkbox canValidate) ∧
      (InfosPane checkbox canValidate vFilter vUserDatas none).vCantContinue = none ∧
      canValidateDialog_initial = false ∧
      (∀ cs : List (Bool → Bool), (∀ c ∈ cs, c false = false) →
        cs.foldl (fun v c => (InfosPane c v vFilter vUserDatas (some old)).canValidateDialog)
            canValidateDialog_initial = false ∧
          ∀ c : Bool → Bool, c false = false →
            (InfosPane c
                (cs.foldl
                  (fun v c => (InfosPane c v vFilter vUserDatas (some old)).canValidateDialog)
                  canValidateDialog_initial)
                vFilter vUserDatas (some old)).vCantContinue = some false) := by
  refine ⟨rfl, rfl, rfl, rfl, fun cs hcs => ?_⟩
  have hstate : cs.foldl
      (fun v c => (InfosPane c v vFilter vUserDatas (some old)).canValidateDialog)
      canValidateDialog_initial = false := by
    have hgen : ∀ (l : List (Bool → Bool)), (∀ c ∈ l, c false = false) →
        l.foldl (fun v c => (InfosPane c v vFilter vUserDatas (some old)).canValidateDialog)
          false = false := by
      intro l
      induction l with
      | nil => intro _; rfl
      | cons c l ih =>
        intro hl
        have hc : c false = false := hl c (List.mem_cons_self c l)
        have hstep : (InfosPane c false vFilter vUserDatas (some old)).canValidateDialog
            = false := hc
        rw [List.foldl_cons, hstep]
        exact ih (fun c' hc' => hl c' (List.mem_cons_of_mem c hc'))
    exact hgen cs hcs
  refine ⟨hstate, fun c hc => ?_⟩
  rw [hstate]
  show some (c false) = some false
  rw [hc]

/-- C12: `check_vk_result` aborts exactly when `err < 0`; for `err == 0` it returns without
any output; for `err > 0` it prints the error line and returns; when it aborts the error line
was printed first. -/
theorem C12_check_vk_result (err : Int) :
    ((∃ t, check_vk_result err = .aborted t) ↔ err < 0) ∧
      (err = 0 → check_vk_result err = .returned () []) ∧
      (0 < err → check_vk_result err = .returned () [Event.fprintf_stderr_VkResult err]) ∧
      (err < 0 → check_vk_result err = .aborted [Event.fprintf_stderr_VkResult err]) := by
  have hneg : err < 0 → check_vk_result err = .aborted [Event.fprintf_stderr_VkResult err] := by
    intro h
    have h0 : err ≠ 0 := ne_of_lt h
    simp only [check_vk_result, beq_iff_eq, h0, if_false, h, if_true, emit_bind]
    rfl
  refine ⟨⟨fun hab => ?_, fun h => ⟨_, hneg h⟩⟩, ?_, ?_, hneg⟩
  · by_contra hge
    obtain ⟨t, ht⟩ := hab
    rw [check_vk_result_of_nonneg (not_lt.mp hge)] at ht
    cases ht
  · intro h
    rw [check_vk_result_of_nonneg (le_of_eq h.symm)]
    simp [h]
  · intro h
    rw [check_vk_result_of_nonneg (le_of_lt h)]
    simp [ne_of_gt h]

/-- C14: when a dialog is validated, `selection` is replaced: for the C++ interface it
becomes the list of (file name, file path name) pairs of the selection of the dialog in its
iteration order, and for the C interface the list of the pairs of `csel.table`, whatever
`selection` held before; so it has as many entries as the selection of the dialog. -/
theorem C14_selection_replaced (d : DialogAnswers) (c : CDialogAnswers) (r : DialogReturns)
    (hd : d.Display = true) (hok : d.IsOk = true) (hcd : c.IGFD_DisplayDialog = true)
    (hcok : c.IGFD_IsOk = true)
    (hcount : c.IGFD_GetSelection.count = c.IGFD_GetSelection.table.length) :
    (displayDialog d r).1.selection = d.GetSelection ∧
      (displayDialog d r).1.selection.length = d.GetSelection.length ∧
      (∀ i : Nat, (displayDialog d r).1.selection[i]? = d.GetSelection[i]?) ∧
      (displayDialogC c r).1.selection
        = c.IGFD_GetSelection.table.map (fun pair => (pair.fileName, pair.filePathName)) ∧
      (displayDialogC c r).1.selection.length = c.IGFD_GetSelection.count ∧
      (∀ i : Nat, (displayDialogC c r).1.selection[i]?
        = (c.IGFD_GetSelection.table[i]?).map
            (fun pair : IGFD_Selection_Pair => (pair.fileName, pair.filePathName))) := by
  have h1 : (displayDialog d r).1.selection = d.GetSelection := by
    simp only [displayDialog, hd, hok, if_true]
    rw [foldl_append_singleton (fun s : String × String => (s.1, s.2))]
    simp
  have h2 : (displayDialogC c r).1.selection
      = c.IGFD_GetSelection.table.map (fun pair => (pair.fileName, pair.filePathName)) := by
    simp only [displayDialogC, hcd, hcok, if_true]
    refine (foldl_range_table
      (fun pair : IGFD_Selection_Pair => (pair.fileName, pair.filePathName))
      c.IGFD_GetSelection.table _ (fun acc i => ?_) c.IGFD_GetSelection.count).trans ?_
    · cases c.IGFD_GetSelection.table[i]? <;> simp
    · rw [hcount, List.take_length]
  refine ⟨h1, by rw [h1], fun i => by rw [h1], h2, by rw [h2, List.length_map, hcount],
    fun i => by rw [h2, List.getElem?_map]⟩

theorem C14_selection_replaced_witness :
    (⟨true, true, "/d/a.cpp", "/d", ".cpp", none, [("a.cpp", "/d/a.cpp"), ("b.h", "/d/b.h")]⟩
        : DialogAnswers).Display = true ∧
    (displayDialog
        ⟨true, true, "/d/a.cpp", "/d", ".cpp", none, [("a.cpp", "/d/a.cpp"), ("b.h", "/d/b.h")]⟩
        ⟨"", "", "", "", [("old", "/old")]⟩).1.selection
      = [("a.cpp", "/d/a.cpp"), ("b.h", "/d/b.h")] ∧
    (displayDialogC
        ⟨true, true, none, none, none, none, ⟨[⟨"a.cpp", "/d/a.cpp"⟩, ⟨"b.h", "/d/b.h"⟩], 2⟩⟩
        ⟨"", "", "", "", [("old", "/old")]⟩).1.selection
      = [("a.cpp", "/d/a.cpp"), ("b.h", "/d/b.h")] :=
  have h := C14_selection_replaced
    ⟨true, true, "/d/a.cpp", "/d", ".cpp", none, [("a.cpp", "/d/a.cpp"), ("b.h", "/d/b.h")]⟩
    ⟨true, true, none, none, none, none, ⟨[⟨"a.cpp", "/d/a.cpp"⟩, ⟨"b.h", "/d/b.h"⟩], 2⟩⟩
    ⟨"", "", "", "", [("old", "/old")]⟩ rfl rfl rfl rfl rfl
  ⟨rfl, h.1, h.2.2.2.1⟩


/-! ## Lemmas on runs and their calls -/

theorem calls_append (s t : List Event) : calls (s ++ t) = calls s ++ calls t :=
  List.filter_append s t

theorem follows_pure {α : Type} (a : α) : Follows (pure a : Outcome α) [] [] :=
  ⟨rfl, fun _ h => absurd h (List.not_mem_nil _)⟩

theorem follows_prepend_call {α : Type} {x : Outcome α} {L : List Event} {errs : List Int}
    (e : Event) (he : e.isCall = true) (h : Follows x L errs) :
    Follows (x.prepend [e]) (e :: L) errs := by
  cases x with
  | returned a t =>
    obtain ⟨h1, h2⟩ := h
    refine ⟨?_, h2⟩
    show calls ([e] ++ t) = e :: L
    rw [calls_append, h1]
    simp [calls, he]
  | aborted t =>
    obtain ⟨h1, t0, err, h2, h3, h4⟩ := h
    refine ⟨?_, e :: t0, err, h2, h3, ?_⟩
    · show calls ([e] ++ t) <+: e :: L
      rw [calls_append]
      have : calls [e] = [e] := by simp [calls, he]
      rw [this]
      exact (List.prefix_append_right_inj [e]).mpr h1
    · show [e] ++ t = _
      rw [h4]; rfl

theorem follows_prepend_output {α : Type} {x : Outcome α} {L : List Event} {errs : List Int}
    (e : Event) (he : e.isCall = false) (h : Follows x L errs) :
    Follows (x.prepend [e]) L errs := by
  cases x with
  | returned a t =>
    obtain ⟨h1, h2⟩ := h
    refine ⟨?_, h2⟩
    show calls ([e] ++ t) = L
    rw [calls_append, h1]
    simp [calls, he]
  | aborted t =>
    obtain ⟨h1, t0, err, h2, h3, h4⟩ := h
    refine ⟨?_, e :: t0, err, h2, h3, ?_⟩
    · show calls ([e] ++ t) <+: L
      rw [calls_append]
      have : calls [e] = [] := by simp [calls, he]
      rw [this]
      exact h1
    · show [e] ++ t = _
      rw [h4]; rfl

theorem follows_check {α : Type} {f : Unit → Outcome α} {L : List Event} {errs : List Int}
    (err : Int) (h : Follows (f ()) L errs) :
    Follows (check_vk_result err >>= f) L (err :: errs) := by
  by_cases hneg : err < 0
  · have h0 : err ≠ 0 := ne_of_lt hneg
    have hab : (check_vk_result err >>= f) = .aborted [Event.fprintf_stderr_VkResult err] := by
      simp only [check_vk_result, beq_iff_eq, h0, if_false, hneg, if_true, emit_bind]
      rfl
    rw [hab]
    exact ⟨List.nil_prefix, [], err, hneg, List.mem_cons_self _ _, rfl⟩
  · have hge : 0 ≤ err := not_lt.mp hneg
    rw [check_vk_result_bind hge]
    have hx : Follows (f ()) L (err :: errs) := by
      cases hf : f () with
      | returned a t =>
        rw [hf] at h
        exact ⟨h.1, fun e he => by
          rcases List.mem_cons.mp he with rfl | he
          · exact hge
          · exact h.2 e he⟩
      | aborted t =>
        rw [hf] at h
        obtain ⟨h1, t0, e, h2, h3, h4⟩ := h
        exact ⟨h1, t0, e, h2, List.mem_cons_of_mem _ h3, h4⟩
    by_cases h0 : err = 0
    · simp only [h0, if_true]
      cases hf : f () <;> (rw [h0, hf] at hx; simpa [Outcome.prepend] using hx)
    · simp only [h0, if_false]
      exact follows_prepend_output _ rfl hx

theorem follows_ite {α : Type} {a b : Outcome α} {L : List Event} {errs : List Int}
    (c : Prop) [Decidable c] (ha : Follows a L errs) (hb : Follows b L errs) :
    Follows (if c then a else b) L errs := by
  split
  · exact ha
  · exact hb

theorem CreateTextureFromBuffer_follows (vk : VkDriver) (cmd : Handle) (buffer : List Nat)
    (w h n : Int) :
    Follows (CreateTextureFromBuffer vk cmd buffer w h n)
      (CreateTextureFromBuffer_calls vk cmd buffer w h n) vk.checkedResults := by
  simp only [CreateTextureFromBuffer, CreateTextureFromBuffer_calls, VkDriver.checkedResults,
    emit_bind, pure_bind_outcome]
  repeat'
    first
    | exact follows_pure _
    | refine follows_prepend_call _ (by rfl) ?_
    | refine follows_prepend_output _ (by rfl) ?_
    | refine follows_check _ ?_
    | apply follows_ite

theorem check_vk_result_of_neg {err : Int} (h : err < 0) :
    check_vk_result err = .aborted [Event.fprintf_stderr_VkResult err] := by
  have h0 : err ≠ 0 := ne_of_lt h
  simp only [check_vk_result, beq_iff_eq, h0, if_false, h, if_true, emit_bind]
  rfl

theorem bind_eq_returned {α β : Type} {x : Outcome α} {f : α → Outcome β} {b : β}
    {t : List Event} (h : (x >>= f) = .returned b t) :
    ∃ a t1 t2, x = .returned a t1 ∧ f a = .returned b t2 ∧ t = t1 ++ t2 := by
  cases x with
  | returned a t1 =>
    rw [returned_bind] at h
    cases hf : f a with
    | returned b2 t2 =>
      rw [hf, prepend_returned] at h
      cases h
      exact ⟨a, t1, t2, rfl, hf, rfl⟩
    | aborted t2 =>
      rw [hf, prepend_aborted] at h
      cases h
  | aborted t1 =>
    rw [aborted_bind] at h
    cases h

theorem emit_bind_eq_returned {β : Type} {e : Event} {f : Unit → Outcome β} {b : β}
    {t : List Event} (h : (emit e >>= f) = .returned b t) :
    ∃ t2, f () = .returned b t2 ∧ t = e :: t2 := by
  obtain ⟨a, t1, t2, h1, h2, h3⟩ := bind_eq_returned h
  cases h1
  exact ⟨t2, h2, h3⟩

theorem check_bind_eq_returned {β : Type} {err : Int} {f : Unit → Outcome β} {b : β}
    {t : List Event} (h : (check_vk_result err >>= f) = .returned b t) :
    0 ≤ err ∧ ∃ t1 t2, f () = .returned b t2 ∧ t = t1 ++ t2 := by
  obtain ⟨a, t1, t2, h1, h2, h3⟩ := bind_eq_returned h
  refine ⟨?_, t1, t2, h2, h3⟩
  by_contra hneg
  rw [check_vk_result_of_neg (not_le.mp hneg)] at h1
  cases h1

theorem pure_eq_returned_iff {α : Type} {a b : α} {t : List Event}
    (h : (pure a : Outcome α) = .returned b t) : b = a ∧ t = [] := by
  cases h
  exact ⟨rfl, rfl⟩

theorem endSingleTimeCommands_eq (cmd : Handle) :
    endSingleTimeCommands cmd
      = .returned () [Event.vkEndCommandBuffer cmd, Event.vkQueueSubmit cmd,
          Event.vkQueueWaitIdle, Event.vkFreeCommandBuffers cmd] := rfl

theorem beginSingleTimeCommands_eq (cmd : Handle) :
    beginSingleTimeCommands cmd
      = .returned cmd [Event.vkAllocateCommandBuffers, Event.vkBeginCommandBuffer cmd] := rfl

/-! ## The thumbnail and upload claims -/

/-- C16: the thumbnail creation callback changes nothing and makes no call unless the info is
non-null, `isReadyToUpload` is true and `textureFileDatas` is non-null; when it acts, on return
`textureFileDatas` is null, `isReadyToUpload` is false, `isReadyToDisplay` is true and exactly
one entry has been appended to `fileDialogAssets` (null for a null command buffer, else the
texture made by `CreateTextureFromBuffer`); and it does return when the command buffer is
null or no checked Vulkan result is negative. -/
theorem C16_createThumbnailCallback (vk : VkDriver) (commandBuffer : Handle)
    (fileDialogAssets : List (Option VulkanImageObject))
    (vThumbnail_Info : Option IGFD_Thumbnail_Info) :
    ((∀ info, vThumbnail_Info = some info →
          info.isReadyToUpload = false ∨ info.textureFileDatas = none) →
        createThumbnailCallback vk commandBuffer fileDialogAssets vThumbnail_Info
          = .returned (fileDialogAssets, vThumbnail_Info) []) ∧
      (∀ info datas, vThumbnail_Info = some info → info.isReadyToUpload = true →
        info.textureFileDatas = some datas →
        (∀ assets vInfo t,
          createThumbnailCallback vk commandBuffer fileDialogAssets vThumbnail_Info
            = .returned (assets, vInfo) t →
          ∃ info2 obj, vInfo = some info2 ∧ info2.textureFileDatas = none ∧
            info2.isReadyToUpload = false ∧ info2.isReadyToDisplay = true ∧
            assets = fileDialogAssets ++ [obj] ∧
            (commandBuffer = VK_NULL_HANDLE → obj = none) ∧
            (commandBuffer ≠ VK_NULL_HANDLE → ∃ created tc,
              CreateTextureFromBuffer vk commandBuffer datas info.textureWidth
                  info.textureHeight info.textureChannels = .returned created tc ∧
                obj = some created)) ∧
        ((commandBuffer = VK_NULL_HANDLE ∨ vk.noNegativeResult) →
          ∃ r t, createThumbnailCallback vk commandBuffer fileDialogAssets vThumbnail_Info
            = .returned r t)) := by
  constructor
  · intro hno
    cases vThumbnail_Info with
    | none => rfl
    | some info =>
      rcases hno info rfl with h | h
      · simp only [createThumbnailCallback, h]
        rfl
      · simp only [createThumbnailCallback, h]
        cases info.isReadyToUpload <;> rfl
  · intro info datas hinfo hup hdatas
    subst hinfo
    by_cases hcmd : commandBuffer = VK_NULL_HANDLE
    · have hrun : createThumbnailCallback vk commandBuffer fileDialogAssets (some info)
          = .returned (fileDialogAssets ++ [none],
              some { info with
                textureID := some ((fileDialogAssets ++ [none]).length - 1),
                textureFileDatas := none, isReadyToUpload := false, isReadyToDisplay := true })
            [Event.vkAllocateCommandBuffers, Event.vkBeginCommandBuffer commandBuffer,
              Event.delete_textureFileDatas] := by
        simp only [createThumbnailCallback, hup, hdatas, if_true, beginSingleTimeCommands_eq,
          returned_bind, hcmd, ne_eq, not_true_eq_false, if_false, pure_bind_outcome, emit_bind,
          pure_eq_returned, prepend_returned]
        rfl
      refine ⟨fun assets vInfo t h => ?_, fun _ => ⟨_, _, hrun⟩⟩
      rw [hrun] at h
      cases h
      exact ⟨_, none, rfl, rfl, rfl, rfl, rfl, fun _ => rfl, fun hne => absurd hcmd hne⟩
    · have hrun : createThumbnailCallback vk commandBuffer fileDialogAssets (some info)
          = (CreateTextureFromBuffer vk commandBuffer datas info.textureWidth
                info.textureHeight info.textureChannels >>= fun created =>
              (.returned (fileDialogAssets ++ [some created],
                some { info with
                  userDatas := some fileDialogAssets.length,
                  textureID := some ((fileDialogAssets ++ [some created]).length - 1),
                  textureFileDatas := none, isReadyToUpload := false,
                  isReadyToDisplay := true })
                [Event.vkEndCommandBuffer commandBuffer, Event.vkQueueSubmit commandBuffer,
                  Event.vkQueueWaitIdle, Event.vkFreeCommandBuffers commandBuffer,
                  Event.delete_textureFileDatas] : Outcome _)).prepend
              [Event.vkAllocateCommandBuffers, Event.vkBeginCommandBuffer commandBuffer] := by
        simp only [createThumbnailCallback, hup, hdatas, if_true, beginSingleTimeCommands_eq,
          returned_bind, hcmd, ne_eq, not_false_eq_true, endSingleTimeCommands_eq,
          pure_bind_outcome, emit_bind, pure_eq_returned, prepend_returned]
        rfl
      constructor
      · intro assets vInfo t h
        rw [hrun] at h
        cases hb : CreateTextureFromBuffer vk commandBuffer datas info.textureWidth
            info.textureHeight info.textureChannels with
        | returned created tc =>
          rw [hb, returned_bind, prepend_returned, prepend_returned] at h
          cases h
          exact ⟨_, some created, rfl, rfl, rfl, rfl, rfl, fun h0 => absurd h0 hcmd,
            fun _ => ⟨created, tc, rfl, rfl⟩⟩
        | aborted tc =>
          rw [hb, aborted_bind, prepend_aborted] at h
          cases h
      · intro hok
        rcases hok with h0 | hvk
        · exact absurd h0 hcmd
        · obtain ⟨tc, htc⟩ := CreateTextureFromBuffer_returns vk commandBuffer datas
            info.textureWidth info.textureHeight info.textureChannels hvk
          rw [hrun, htc, returned_bind, prepend_returned, prepend_returned]
          exact ⟨_, _, rfl⟩

/-- C17: `CreateTextureFromBuffer` returns exactly when no checked result is negative; in
every run that returns, the calls made are the call statements of the function, each once and
in the order of the source, whatever the pixel data and the results; a run that does not
return made a prefix of those calls and ended in `check_vk_result` right after the error line
of a negative result, so no call was made again. -/
theorem C17_CreateTextureFromBuffer_sequential (vk : VkDriver) (command_buffer : Handle)
    (buffer : List Nat) (w h n : Int) :
    ((∃ obj t, CreateTextureFromBuffer vk command_buffer buffer w h n = .returned obj t)
        ↔ vk.noNegativeResult) ∧
      (∀ obj t, CreateTextureFromBuffer vk command_buffer buffer w h n = .returned obj t →
        calls t = CreateTextureFromBuffer_calls vk command_buffer buffer w h n ∧
          (calls t).map Event.callee
            = ["new", "vkCreateImage", "vkGetImageMemoryRequirements",
                "ImGui_ImplVulkan_MemoryType", "vkAllocateMemory", "vkBindImageMemory",
                "vkCreateSampler", "vkCreateImageView",
                "ImGui_ImplVulkanH_Create_UserTexture_Descriptor", "vkCreateBuffer",
                "vkGetBufferMemoryRequirements", "ImGui_ImplVulkan_MemoryType",
                "vkAllocateMemory", "vkBindBufferMemory", "vkMapMemory", "memcpy",
                "vkFlushMappedMemoryRanges", "vkUnmapMemory", "vkCmdPipelineBarrier",
                "vkCmdCopyBufferToImage", "vkCmdPipelineBarrier", "vkDeviceWaitIdle"]) ∧
      (∀ t, CreateTextureFromBuffer vk command_buffer buffer w h n = .aborted t →
        calls t <+: CreateTextureFromBuffer_calls vk command_buffer buffer w h n ∧
          ∃ t0 err, err < 0 ∧ err ∈ vk.checkedResults ∧
            t = t0 ++ [Event.fprintf_stderr_VkResult err]) := by
  have hF := CreateTextureFromBuffer_follows vk command_buffer buffer w h n
  refine ⟨⟨fun hret => ?_, fun hvk => ?_⟩, fun obj t hrun => ?_, fun t hrun => ?_⟩
  · obtain ⟨obj, t, hrun⟩ := hret
    rw [hrun] at hF
    have hall := hF.2
    simp only [VkDriver.checkedResults, List.mem_cons, List.mem_singleton, forall_eq_or_imp,
      forall_eq] at hall
    simpa [VkDriver.noNegativeResult] using hall
  · obtain ⟨t, ht⟩ := CreateTextureFromBuffer_returns vk command_buffer buffer w h n hvk
    exact ⟨_, t, ht⟩
  · rw [hrun] at hF
    refine ⟨hF.1, ?_⟩
    rw [hF.1]
    rfl
  · rw [hrun] at hF
    exact hF


/-! ## Lemmas on the reload block -/

theorem DestroyTexture_returned (o : VulkanImageObject) :
    DestroyTexture (some o) = .returned (some {}) (DestroyTexture (some o)).trace := by
  rw [DestroyTexture_some]
  rfl

theorem sharedPtrAssign_eq (old new : Option VulkanImageObject) :
    sharedPtrAssign old new
      = .returned new
          (match old with
            | some o => (DestroyTexture (some o)).trace ++ [Event.delete_VulkanImageObject]
            | none => []) := by
  cases old with
  | none => rfl
  | some o =>
    have hD := DestroyTexture_returned o
    dsimp only
    generalize (DestroyTexture (some o)).trace = tr at hD ⊢
    simp only [sharedPtrAssign, sharedPtrDeleter, hD, returned_bind, emit, pure_eq_returned,
      prepend_returned, List.append_nil]

theorem reloadDestroy_UserTexture1 (u1 u2 : Option VulkanImageObject) :
    reloadDestroy "UserTexture1" u1 u2
      = .returned (u1.map (fun _ => ({} : VulkanImageObject)), u2)
          (match u1 with
            | some o => (DestroyTexture (some o)).trace
            | none => []) := by
  cases u1 with
  | none => rfl
  | some o =>
    have hD := DestroyTexture_returned o
    dsimp only
    generalize (DestroyTexture (some o)).trace = tr at hD ⊢
    simp only [reloadDestroy, if_true, Option.isSome_some, hD, returned_bind, pure_eq_returned,
      prepend_returned, List.append_nil, Option.map_some']

theorem reloadDestroy_UserTexture2 (u1 u2 : Option VulkanImageObject) :
    reloadDestroy "UserTexture2" u1 u2
      = .returned (u1, u2.map (fun o => if o.buf ≠ VK_NULL_HANDLE then {} else o))
          (match u2 with
            | some o => if o.buf ≠ VK_NULL_HANDLE then (DestroyTexture (some o)).trace else []
            | none => []) := by
  have hne : ¬ ("UserTexture2" = "UserTexture1") := by decide
  cases u2 with
  | none =>
    simp only [reloadDestroy, hne, if_false, if_true]
    rfl
  | some o =>
    simp only [reloadDestroy, hne, if_false, if_true]
    by_cases hb : o.buf = VK_NULL_HANDLE
    · simp only [hb, ne_eq, not_true_eq_false, if_false, Option.map_some']
      rfl
    · have hD := DestroyTexture_returned o
      generalize (DestroyTexture (some o)).trace = tr at hD ⊢
      simp only [hb, ne_eq, not_false_eq_true, if_true, Option.map_some', hD, returned_bind,
        pure_eq_returned, prepend_returned, List.append_nil]

theorem reloadDestroy_other (textureInput : String) (u1 u2 : Option VulkanImageObject)
    (h1 : textureInput ≠ "UserTexture1") (h2 : textureInput ≠ "UserTexture2") :
    reloadDestroy textureInput u1 u2 = .returned (u1, u2) [] := by
  simp only [reloadDestroy, h1, h2, if_false]
  rfl

theorem reloadCreate_other (vk : VkDriver) (stbi : StbiImage) (cmd : Handle)
    (fileToLoad textureInput : String) (u1 u2 : Option VulkanImageObject)
    (h1 : textureInput ≠ "UserTexture1") (h2 : textureInput ≠ "UserTexture2") :
    reloadCreate vk stbi cmd fileToLoad textureInput u1 u2 = .returned (u1, u2) [] := by
  simp only [reloadCreate, h1, h2, if_false]
  rfl

theorem reloadCreate_UserTexture1 (vk : VkDriver) (stbi : StbiImage) (cmd : Handle)
    (fileToLoad : String) (u1 u2 : Option VulkanImageObject) :
    reloadCreate vk stbi cmd fileToLoad "UserTexture1" u1 u2
      = (CreateTextureFromFile vk stbi cmd fileToLoad >>= fun loaded =>
          (.returned (loaded, u2)
            (match u1 with
              | some o => (DestroyTexture (some o)).trace ++ [Event.delete_VulkanImageObject]
              | none => []) : Outcome _)) := by
  simp only [reloadCreate, if_true, sharedPtrAssign_eq, returned_bind, pure_eq_returned,
    prepend_returned, List.append_nil]

theorem reloadCreate_UserTexture2 (vk : VkDriver) (stbi : StbiImage) (cmd : Handle)
    (fileToLoad : String) (u1 u2 : Option VulkanImageObject) :
    reloadCreate vk stbi cmd fileToLoad "UserTexture2" u1 u2
      = (CreateTextureFromFile vk stbi cmd fileToLoad >>= fun loaded =>
          (.returned (u1, loaded)
            (match u2 with
              | some o => (DestroyTexture (some o)).trace ++ [Event.delete_VulkanImageObject]
              | none => []) : Outcome _)) := by
  have hne : ¬ ("UserTexture2" = "UserTexture1") := by decide
  simp only [reloadCreate, hne, if_false, if_true, sharedPtrAssign_eq, returned_bind,
    pure_eq_returned, prepend_returned, List.append_nil]

/-- A run of the reload block that passes the guard and returns: the teardown part returned
`d` with the events `tD`, which are part of the trace, and the result is `d` for a null
command buffer and else what the assignments part returned, with its events `tC` in the
trace. -/
theorem reloadUserTexture_returned (fd : FrameDriver) (vk : VkDriver) (stbi : StbiImage)
    (fileToLoad textureInput : String) (u1 u2 : Option VulkanImageObject)
    (r : Option VulkanImageObject × Option VulkanImageObject) (t : List Event)
    (hf : fileToLoad ≠ "") (hi : textureInput ≠ "")
    (h : reloadUserTexture fd vk stbi fileToLoad textureInput u1 u2 = .returned r t) :
    ∃ d tD, reloadDestroy textureInput u1 u2 = .returned d tD ∧ tD <:+: t ∧
      ((fd.commandBuffer = VK_NULL_HANDLE ∧ r = d) ∨
        (fd.commandBuffer ≠ VK_NULL_HANDLE ∧ ∃ tC,
          reloadCreate vk stbi fd.commandBuffer fileToLoad textureInput d.1 d.2
            = .returned r tC ∧ tC <:+: t)) := by
  rw [reloadUserTexture, if_pos ⟨hf, hi⟩] at h
  obtain ⟨t1, h1, e1⟩ := emit_bind_eq_returned h
  obtain ⟨_, o1, t2, h2, e2⟩ := check_bind_eq_returned h1
  obtain ⟨d, tD, t3, hD, h3, e3⟩ := bind_eq_returned h2
  obtain ⟨t4, h4, e4⟩ := emit_bind_eq_returned h3
  obtain ⟨_, o2, t5, h5, e5⟩ := check_bind_eq_returned h4
  obtain ⟨cmd, tB, t6, hB, h6, e6⟩ := bind_eq_returned h5
  rw [beginSingleTimeCommands_eq] at hB
  cases hB
  have htD : tD <:+: t := by
    subst e1 e2 e3
    exact ⟨Event.vkWaitForFences :: o1, t3, by simp⟩
  refine ⟨d, tD, hD, htD, ?_⟩
  by_cases hcmd : fd.commandBuffer = VK_NULL_HANDLE
  · left
    rw [if_neg (not_not.mpr hcmd)] at h6
    obtain ⟨loaded, tL, t7, hL, h7, e7⟩ := bind_eq_returned h6
    obtain ⟨t8, h8, e8⟩ := emit_bind_eq_returned h7
    obtain ⟨_, o3, t9, h9, e9⟩ := check_bind_eq_returned h8
    have hr := (pure_eq_returned_iff h9).1
    have hl := (pure_eq_returned_iff hL).1
    exact ⟨hcmd, hr.trans hl⟩
  · right
    rw [if_pos hcmd] at h6
    obtain ⟨created, tC, t7, hC, h7, e7⟩ := bind_eq_returned h6
    obtain ⟨u, tE, t8, hE, h8, e8⟩ := bind_eq_returned h7
    obtain ⟨y, tY, t9, hY, h9, e9⟩ := bind_eq_returned h8
    obtain ⟨t10, h10, e10⟩ := emit_bind_eq_returned h9
    obtain ⟨_, o3, t11, h11, e11⟩ := check_bind_eq_returned h10
    have hr := (pure_eq_returned_iff h11).1
    have hy := (pure_eq_returned_iff hY).1
    refine ⟨hcmd, tC, ?_, ?_⟩
    · rw [hr, hy]; exact hC
    · subst e1 e2 e3 e4 e5 e6 e7
      exact ⟨Event.vkWaitForFences :: (o1 ++ (tD ++ (Event.vkDeviceWaitIdle ::
        (o2 ++ [Event.vkAllocateCommandBuffers, Event.vkBeginCommandBuffer fd.commandBuffer])))),
        t7, by simp⟩

theorem reloadDestroy_returns (textureInput : String) (u1 u2 : Option VulkanImageObject) :
    ∃ d tD, reloadDestroy textureInput u1 u2 = .returned d tD := by
  by_cases h1 : textureInput = "UserTexture1"
  · subst h1
    exact ⟨_, _, reloadDestroy_UserTexture1 u1 u2⟩
  · by_cases h2 : textureInput = "UserTexture2"
    · subst h2
      exact ⟨_, _, reloadDestroy_UserTexture2 u1 u2⟩
    · exact ⟨_, _, reloadDestroy_other textureInput u1 u2 h1 h2⟩

theorem CreateTextureFromFile_returns (vk : VkDriver) (stbi : StbiImage) (cmd : Handle)
    (inFile : String) (hvk : vk.noNegativeResult) :
    ∃ r t, CreateTextureFromFile vk stbi cmd inFile = .returned r t := by
  by_cases hbad : stbi.imgDatas = none ∨ stbi.w = 0 ∨ stbi.h = 0
  · exact ⟨_, _, CreateTextureFromFile_none vk stbi cmd inFile hbad⟩
  · have hd : stbi.imgDatas ≠ none := fun h => hbad (Or.inl h)
    have hw : stbi.w ≠ 0 := fun h => hbad (Or.inr (Or.inl h))
    have hh : stbi.h ≠ 0 := fun h => hbad (Or.inr (Or.inr h))
    obtain ⟨data, hdata⟩ := Option.ne_none_iff_exists'.mp hd
    obtain ⟨t, ht⟩ := CreateTextureFromBuffer_returns vk cmd data stbi.w stbi.h 4 hvk
    rw [CreateTextureFromFile_some vk stbi cmd inFile data hdata hw hh, ht]
    exact ⟨_, _, rfl⟩

theorem reloadCreate_returns (vk : VkDriver) (stbi : StbiImage) (cmd : Handle)
    (fileToLoad textureInput : String) (u1 u2 : Option VulkanImageObject)
    (hvk : vk.noNegativeResult) :
    ∃ r t, reloadCreate vk stbi cmd fileToLoad textureInput u1 u2 = .returned r t := by
  obtain ⟨loaded, tl, hl⟩ := CreateTextureFromFile_returns vk stbi cmd fileToLoad hvk
  by_cases h1 : textureInput = "UserTexture1"
  · subst h1
    rw [reloadCreate_UserTexture1, hl, returned_bind, prepend_returned]
    exact ⟨_, _, rfl⟩
  · by_cases h2 : textureInput = "UserTexture2"
    · subst h2
      rw [reloadCreate_UserTexture2, hl, returned_bind, prepend_returned]
      exact ⟨_, _, rfl⟩
    · exact ⟨_, _, reloadCreate_other vk stbi cmd fileToLoad textureInput u1 u2 h1 h2⟩

theorem reloadUserTexture_returns (fd : FrameDriver) (vk : VkDriver) (stbi : StbiImage)
    (fileToLoad textureInput : String) (u1 u2 : Option VulkanImageObject)
    (h1 : 0 ≤ fd.vkWaitForFences) (h2 : 0 ≤ fd.vkDeviceWaitIdle_first)
    (h3 : 0 ≤ fd.vkDeviceWaitIdle_last) (hvk : vk.noNegativeResult) :
    ∃ r t, reloadUserTexture fd vk stbi fileToLoad textureInput u1 u2 = .returned r t := by
  by_cases hg : fileToLoad ≠ "" ∧ textureInput ≠ ""
  · obtain ⟨d, tD, hD⟩ := reloadDestroy_returns textureInput u1 u2
    rw [reloadUserTexture, if_pos hg]
    simp only [emit_bind, check_vk_result_bind h1, check_vk_result_bind h2,
      check_vk_result_bind h3, hD, returned_bind, beginSingleTimeCommands_eq]
    by_cases hcmd : fd.commandBuffer = VK_NULL_HANDLE
    · rw [if_neg (not_not.mpr hcmd)]
      simp only [pure_bind_outcome, pure_eq_returned, prepend_returned]
      exact ⟨_, _, rfl⟩
    · obtain ⟨r, tC, hC⟩ := reloadCreate_returns vk stbi fd.commandBuffer fileToLoad
        textureInput d.1 d.2 hvk
      rw [if_pos hcmd]
      simp only [hC, returned_bind, endSingleTimeCommands_eq, pure_bind_outcome,
        pure_eq_returned, prepend_returned]
      exact ⟨_, _, rfl⟩
  · rw [reloadUserTexture, if_neg hg]
    exact ⟨_, _, rfl⟩

/-! ## The reload claim -/

/-- C15 fails as stated: with a non-empty file name, `UserTexture1` and a null command buffer
from `beginSingleTimeCommands`, the reload block tears `userImage1` down and returns without
calling `CreateTextureFromFile`, so `userImage1` is not reassigned, although loading the file
would have produced a texture. -/
theorem C15_not_reassigned_counterexample :
    reloadUserTexture ⟨0, 0, VK_NULL_HANDLE, 0⟩ acceptingDriver onePixel "a.png" "UserTexture1"
        (some ⟨1, 2, 3, 4, 5, 6, 7⟩) none
      = .returned (some {}, none)
          [Event.vkWaitForFences, Event.vkDestroyBuffer 4, Event.vkFreeMemory 3,
            Event.vkDestroyImageView 6, Event.vkDestroyImage 2, Event.vkFreeMemory 1,
            Event.vkDestroySampler 5, Event.ImGui_ImplVulkanH_Destroy_UserTexture_Descriptor 7,
            Event.vkDeviceWaitIdle, Event.vkAllocateCommandBuffers,
            Event.vkBeginCommandBuffer VK_NULL_HANDLE, Event.vkDeviceWaitIdle] ∧
      ¬ ∃ tl, CreateTextureFromFile acceptingDriver onePixel VK_NULL_HANDLE "a.png"
          = .returned (some {}) tl := by
  refine ⟨by decide, ?_⟩
  rintro ⟨tl, htl⟩
  obtain ⟨tb, htb⟩ := CreateTextureFromBuffer_returns acceptingDriver VK_NULL_HANDLE
    [255, 0, 0, 255] 1 1 4 (by decide)
  rw [CreateTextureFromFile_some acceptingDriver onePixel VK_NULL_HANDLE "a.png"
    [255, 0, 0, 255] rfl (by decide) (by decide)] at htl
  have hb : CreateTextureFromBuffer acceptingDriver VK_NULL_HANDLE [255, 0, 0, 255] onePixel.w
      onePixel.h 4 = CreateTextureFromBuffer acceptingDriver VK_NULL_HANDLE [255, 0, 0, 255]
        1 1 4 := rfl
  rw [hb, htb] at htl
  have hobj := (Option.some.inj (Outcome.returned.inj htl).1)
  have himg : (11 : Nat) = 0 := congrArg VulkanImageObject.img hobj
  exact absurd himg (by decide)

/-- C15, amended: the reload block does nothing unless both `fileToLoad` and `textureInput`
are non-empty.  When it runs and returns: for `UserTexture1`, `userImage2` is unchanged, the
old `userImage1` is torn down by `DestroyTexture`, and `userImage1` is what
`CreateTextureFromFile` returned if the command buffer is non-null, and only the torn down
object if it is null; for `UserTexture2` the same holds with the roles exchanged, the
teardown happening when `buf` is non-null or the command buffer is non-null; for any other
string neither image is changed.  It returns when no result is negative. -/
theorem C15_reloadUserTexture (fd : FrameDriver) (vk : VkDriver) (stbi : StbiImage)
    (fileToLoad textureInput : String) (u1 u2 : Option VulkanImageObject) :
    ((fileToLoad = "" ∨ textureInput = "") →
        reloadUserTexture fd vk stbi fileToLoad textureInput u1 u2 = .returned (u1, u2) []) ∧
      (∀ r1 r2 t,
        reloadUserTexture fd vk stbi fileToLoad textureInput u1 u2 = .returned (r1, r2) t →
        fileToLoad ≠ "" →
        (textureInput = "UserTexture1" →
          r2 = u2 ∧
          (fd.commandBuffer ≠ VK_NULL_HANDLE →
            ∃ tl, CreateTextureFromFile vk stbi fd.commandBuffer fileToLoad
              = .returned r1 tl) ∧
          (fd.commandBuffer = VK_NULL_HANDLE →
            r1 = u1.map (fun _ => ({} : VulkanImageObject))) ∧
          (∀ o, u1 = some o → (DestroyTexture (some o)).trace <:+: t)) ∧
        (textureInput = "UserTexture2" →
          r1 = u1 ∧
          (fd.commandBuffer ≠ VK_NULL_HANDLE →
            ∃ tl, CreateTextureFromFile vk stbi fd.commandBuffer fileToLoad
              = .returned r2 tl) ∧
          (fd.commandBuffer = VK_NULL_HANDLE →
            r2 = u2.map (fun o => if o.buf ≠ VK_NULL_HANDLE then {} else o)) ∧
          (∀ o, u2 = some o → o.buf ≠ VK_NULL_HANDLE ∨ fd.commandBuffer ≠ VK_NULL_HANDLE →
            (DestroyTexture (some o)).trace <:+: t)) ∧
        (textureInput ≠ "UserTexture1" → textureInput ≠ "UserTexture2" →
          r1 = u1 ∧ r2 = u2)) ∧
      (0 ≤ fd.vkWaitForFences → 0 ≤ fd.vkDeviceWaitIdle_first →
        0 ≤ fd.vkDeviceWaitIdle_last → vk.noNegativeResult →
        ∃ r t, reloadUserTexture fd vk stbi fileToLoad textureInput u1 u2 = .returned r t) := by
  refine ⟨fun hg => ?_, fun r1 r2 t hrun hf => ⟨fun hi => ?_, fun hi => ?_, fun hn1 hn2 => ?_⟩,
    fun h1 h2 h3 hvk => reloadUserTexture_returns fd vk stbi fileToLoad textureInput u1 u2
      h1 h2 h3 hvk⟩
  · have hng : ¬ (fileToLoad ≠ "" ∧ textureInput ≠ "") := by
      rintro ⟨ha, hb⟩
      rcases hg with h | h
      · exact ha h
      · exact hb h
    rw [reloadUserTexture, if_neg hng]
    rfl
  · subst hi
    obtain ⟨d, tD, hD, htD, hcase⟩ := reloadUserTexture_returned fd vk stbi fileToLoad
      "UserTexture1" u1 u2 (r1, r2) t hf (by decide) hrun
    rw [reloadDestroy_UserTexture1] at hD
    cases hD
    have hinf : ∀ o, u1 = some o → (DestroyTexture (some o)).trace <:+: t := by
      intro o ho
      subst ho
      exact htD
    rcases hcase with ⟨hcmd, hr⟩ | ⟨hcmd, tC, hC, _⟩
    · cases hr
      exact ⟨rfl, fun hne => absurd hcmd hne, fun _ => rfl, hinf⟩
    · rw [reloadCreate_UserTexture1] at hC
      obtain ⟨loaded, tl, t2, hl, hret, _⟩ := bind_eq_returned hC
      cases hret
      exact ⟨rfl, fun _ => ⟨tl, hl⟩, fun h0 => absurd h0 hcmd, hinf⟩
  · subst hi
    obtain ⟨d, tD, hD, htD, hcase⟩ := reloadUserTexture_returned fd vk stbi fileToLoad
      "UserTexture2" u1 u2 (r1, r2) t hf (by decide) hrun
    rw [reloadDestroy_UserTexture2] at hD
    cases hD
    rcases hcase with ⟨hcmd, hr⟩ | ⟨hcmd, tC, hC, htC⟩
    · cases hr
      refine ⟨rfl, fun hne => absurd hcmd hne, fun _ => rfl, fun o ho hor => ?_⟩
      subst ho
      rcases hor with hb | hc
      · simpa [hb] using htD
      · exact absurd hcmd hc
    · rw [reloadCreate_UserTexture2] at hC
      obtain ⟨loaded, tl, t2, hl, hret, ht2⟩ := bind_eq_returned hC
      cases hret
      refine ⟨rfl, fun _ => ⟨tl, hl⟩, fun h0 => absurd h0 hcmd, fun o ho hor => ?_⟩
      subst ho
      by_cases hb : o.buf = VK_NULL_HANDLE
      · have hin : (DestroyTexture (some o)).trace <:+: tC := by
          rw [ht2]
          simp only [Option.map_some', hb, ne_eq, not_true_eq_false, if_false]
          exact ⟨tl, [Event.delete_VulkanImageObject], by simp⟩
        exact hin.trans htC
      · simpa [hb] using htD
  · by_cases hi0 : textureInput = ""
    · have hng : ¬ (fileToLoad ≠ "" ∧ textureInput ≠ "") := fun hg => hg.2 hi0
      rw [reloadUserTexture, if_neg hng] at hrun
      have hr := (pure_eq_returned_iff hrun).1
      cases hr
      exact ⟨rfl, rfl⟩
    · obtain ⟨d, tD, hD, _, hcase⟩ := reloadUserTexture_returned fd vk stbi fileToLoad
        textureInput u1 u2 (r1, r2) t hf hi0 hrun
      rw [reloadDestroy_other textureInput u1 u2 hn1 hn2] at hD
      cases hD
      rcases hcase with ⟨_, hr⟩ | ⟨_, tC, hC, _⟩
      · cases hr
        exact ⟨rfl, rfl⟩
      · rw [reloadCreate_other vk stbi fd.commandBuffer fileToLoad textureInput u1 u2 hn1 hn2]
          at hC
        cases hC
        exact ⟨rfl, rfl⟩
end ImGuiFileDialogDemo
